import Mathlib

/-!
Verification of the STIX 2.1 generator and validator core
(`stix2-generator/scripts/generate_stix.py` and
`stix2-validator/scripts/validate_stix.py`).

Strings are modelled as Lean `String`s, usually manipulated through their
underlying `List Char`.  The anchored regular expressions of the source are
translated into executable boolean recognizers on `List Char`; Python's
`re.match` with a pattern of the form `^...$` also accepts a single trailing
newline (the `$` anchor matches just before a final newline), which is
captured by `pyMatch`.  Python's `str.strip` is `pyStrip`.  The mutable
generator session (`self.objects`, `self.relationships`) is modelled by
explicit state passing through the `STIXGenerator` structure; the random
UUID suffix of a STIX identifier is replaced by a deterministic fresh
counter threaded through the state.
-/

namespace StixGen

/-! ## Python string primitives -/

/-- The ASCII whitespace characters removed by Python's `str.strip()` and
matched by the regex class used in the source patterns. -/
def isPySpace (c : Char) : Bool :=
  c == ' ' || c == '\t' || c == '\n' || c == '\r' || c == '\x0b' || c == '\x0c'

/-- Python's `str.strip()` on the character list of a string. -/
def pyStrip (cs : List Char) : List Char :=
  ((cs.dropWhile isPySpace).reverse.dropWhile isPySpace).reverse

/-- Python's `str.strip()` as a `String → String` function. -/
def pyStripString (s : String) : String := ⟨pyStrip s.data⟩

/-- Python's `str.lower()` (ASCII case folding suffices for the inputs the
source feeds it). -/
def pyLower (s : String) : String := ⟨s.data.map Char.toLower⟩

/-- Python's `str.upper()`. -/
def pyUpper (s : String) : String := ⟨s.data.map Char.toUpper⟩

/-- Python's `s.replace('.', '/')`. -/
def pyReplaceDotSlash (s : String) : String :=
  ⟨s.data.map (fun c => if c = '.' then '/' else c)⟩

/-- Character-level form of Python's `s.replace('Z', '+00:00')`. -/
def replaceZChars : List Char → List Char
  | [] => []
  | 'Z' :: r => '+' :: '0' :: '0' :: ':' :: '0' :: '0' :: replaceZChars r
  | c :: r => c :: replaceZChars r

/-- Python's `s.replace('Z', '+00:00')`. -/
def replaceZ (s : String) : String := ⟨replaceZChars s.data⟩

/-- Python's falsy-or-default idiom `x if x else d` for optional strings:
`None` and the empty string both fall back to the default. -/
def pyOrDefault (o : Option String) (d : String) : String :=
  match o with
  | some s => if s = "" then d else s
  | none => d

/-- Python's falsy-or-default idiom for optional lists: `None` and the empty
list both fall back to the default. -/
def pyOrDefaultList (o : Option (List String)) (d : List String) : List String :=
  match o with
  | some (h :: t) => h :: t
  | _ => d

/-- Python's `re.match` against an anchored pattern `^core$`: the whole
string matches `core`, or the string ends in a newline and everything before
that final newline matches `core` (Python's `$` also matches just before a
trailing newline). -/
def pyMatch (core : List Char → Bool) (cs : List Char) : Bool :=
  core cs || (cs.getLast? == some '\n' && core cs.dropLast)

/-! ## The anchored regular expressions of `STIXGenerator` -/

/-- Splits a character list at every occurrence of `sep`; the resulting
groups never contain `sep` and always form a non-empty list. -/
def splitChar (sep : Char) : List Char → List (List Char)
  | [] => [[]]
  | c :: rest =>
    let r := splitChar sep rest
    if c = sep then [] :: r
    else
      match r with
      | g :: gs => (c :: g) :: gs
      | [] => [[c]]

/-- A hexadecimal digit, the class `[a-fA-F0-9]`. -/
def isHexChar (c : Char) : Bool :=
  c.isDigit || ('a' ≤ c && c ≤ 'f') || ('A' ≤ c && c ≤ 'F')

/-- `IPV4_PATTERN = ^(?:[0-9]{1,3}\.){3}[0-9]{1,3}$`: exactly four groups of
one to three decimal digits separated by dots. -/
def ipv4Core (cs : List Char) : Bool :=
  let gs := splitChar '.' cs
  gs.length == 4 &&
    gs.all (fun g => decide (1 ≤ g.length) && decide (g.length ≤ 3) && g.all Char.isDigit)

/-- `IPV6_PATTERN = ^(?:[0-9a-fA-F]{0,4}:){7}[0-9a-fA-F]{0,4}$`: exactly
eight groups of zero to four hex digits separated by colons. -/
def ipv6Core (cs : List Char) : Bool :=
  let gs := splitChar ':' cs
  gs.length == 8 && gs.all (fun g => decide (g.length ≤ 4) && g.all isHexChar)

/-- One domain label `[a-zA-Z0-9](?:[a-zA-Z0-9-]{0,61}[a-zA-Z0-9])?`: a
single alphanumeric character, or an alphanumeric first and last character
with up to 61 alphanumeric-or-hyphen characters between them. -/
def isLabel : List Char → Bool
  | [] => false
  | [c] => c.isAlphanum
  | c :: rest =>
      decide (rest.length ≤ 62) && c.isAlphanum &&
      (match rest.getLast? with
       | some l => l.isAlphanum
       | none => false) &&
      rest.dropLast.all (fun x => x.isAlphanum || x == '-')

/-- The final label `[a-zA-Z]{2,}` of `DOMAIN_PATTERN`. -/
def isTld : Option (List Char) → Bool
  | some g => decide (2 ≤ g.length) && g.all Char.isAlpha
  | none => false

/-- `DOMAIN_PATTERN = ^(?:[a-zA-Z0-9](?:[a-zA-Z0-9-]{0,61}[a-zA-Z0-9])?\.)+[a-zA-Z]{2,}$`:
at least one label, a dot after each, and a final top-level label of at
least two letters. -/
def domainCore (cs : List Char) : Bool :=
  let gs := splitChar '.' cs
  decide (2 ≤ gs.length) && gs.dropLast.all isLabel && isTld gs.getLast?

/-- `URL_PATTERN = ^https?://[^\s]+$`. -/
def urlCore (cs : List Char) : Bool :=
  match cs with
  | 'h' :: 't' :: 't' :: 'p' :: ':' :: '/' :: '/' :: r =>
      !r.isEmpty && r.all (fun c => !isPySpace c)
  | 'h' :: 't' :: 't' :: 'p' :: 's' :: ':' :: '/' :: '/' :: r =>
      !r.isEmpty && r.all (fun c => !isPySpace c)
  | _ => false

/-- The local-part class `[a-zA-Z0-9._%+-]` of `EMAIL_PATTERN`. -/
def isEmailLocalChar (c : Char) : Bool :=
  c.isAlphanum || c == '.' || c == '_' || c == '%' || c == '+' || c == '-'

/-- The domain class `[a-zA-Z0-9.-]` of `EMAIL_PATTERN`. -/
def isEmailDomChar (c : Char) : Bool :=
  c.isAlphanum || c == '.' || c == '-'

/-- The part of `EMAIL_PATTERN` after `@`:
`[a-zA-Z0-9.-]+\.[a-zA-Z]{2,}` — a non-empty run of domain characters, a
dot, and at least two letters running to the end.  The letter run after the
last dot is recovered as the maximal alphabetic suffix. -/
def emailDomainCore (cs : List Char) : Bool :=
  let rev := cs.reverse
  let suf := rev.takeWhile Char.isAlpha
  match rev.dropWhile Char.isAlpha with
  | '.' :: pre => decide (2 ≤ suf.length) && !pre.isEmpty && pre.all isEmailDomChar
  | _ => false

/-- `EMAIL_PATTERN = ^[a-zA-Z0-9._%+-]+@[a-zA-Z0-9.-]+\.[a-zA-Z]{2,}$`:
exactly one `@`, a non-empty local part before it, and a well-formed domain
tail after it. -/
def emailCore (cs : List Char) : Bool :=
  match splitChar '@' cs with
  | [localPart, domPart] =>
      !localPart.isEmpty && localPart.all isEmailLocalChar && emailDomainCore domPart
  | _ => false

/-- `MD5_PATTERN` / `SHA1_PATTERN` / `SHA256_PATTERN`: exactly `n` hex
digits. -/
def hexCore (n : Nat) (cs : List Char) : Bool :=
  cs.length == n && cs.all isHexChar

/-- `TECHNIQUE_PATTERN = ^T\d{4}(\.\d{3})?$`. -/
def techniqueCore : List Char → Bool
  | 'T' :: d1 :: d2 :: d3 :: d4 :: tail =>
      d1.isDigit && d2.isDigit && d3.isDigit && d4.isDigit &&
      (match tail with
       | [] => true
       | '.' :: e1 :: e2 :: e3 :: [] => e1.isDigit && e2.isDigit && e3.isDigit
       | _ => false)
  | _ => false

/-- The technique-identifier format as the specification words it: `T`
followed by exactly four digits, optionally followed by a dot and exactly
three digits — with no allowance for anything after it.  Stated from the
spec's words for comparison with the source's matcher. -/
def techniqueFormatSpec (s : String) : Bool := techniqueCore s.data

/-! ## `detect_ioc_type` and `create_indicator_pattern` -/

/-- `STIXGenerator.detect_ioc_type`: strip the input, then try the format
tests in the source's fixed order, first match winning. -/
def detect_ioc_type (ioc : String) : Option String :=
  let cs := pyStrip ioc.data
  if pyMatch ipv4Core cs then some "ipv4"
  else if pyMatch ipv6Core cs then some "ipv6"
  else if pyMatch domainCore cs then some "domain"
  else if pyMatch urlCore cs then some "url"
  else if pyMatch emailCore cs then some "email"
  else if pyMatch (hexCore 32) cs then some "md5"
  else if pyMatch (hexCore 40) cs then some "sha1"
  else if pyMatch (hexCore 64) cs then some "sha256"
  else none

/-- `STIXGenerator.create_indicator_pattern`: the per-type STIX pattern
templates, with hash values lower-cased, and the generic
`[<type>:value = '<ioc>']` fallback for an unrecognized type tag. -/
def create_indicator_pattern (ioc : String) (ioc_type : String) : String :=
  if ioc_type = "ipv4" then
    "[network-traffic:dst_ref.type = 'ipv4-addr' AND network-traffic:dst_ref.value = '" ++ ioc ++ "']"
  else if ioc_type = "ipv6" then
    "[network-traffic:dst_ref.type = 'ipv6-addr' AND network-traffic:dst_ref.value = '" ++ ioc ++ "']"
  else if ioc_type = "domain" then
    "[domain-name:value = '" ++ ioc ++ "']"
  else if ioc_type = "url" then
    "[url:value = '" ++ ioc ++ "']"
  else if ioc_type = "email" then
    "[email-addr:value = '" ++ ioc ++ "']"
  else if ioc_type = "md5" then
    "[file:hashes.MD5 = '" ++ pyLower ioc ++ "']"
  else if ioc_type = "sha1" then
    "[file:hashes.SHA-1 = '" ++ pyLower ioc ++ "']"
  else if ioc_type = "sha256" then
    "[file:hashes.SHA-256 = '" ++ pyLower ioc ++ "']"
  else
    "[" ++ ioc_type ++ ":value = '" ++ ioc ++ "']"

/-! ## The STIX object model

A single record covers every object kind the generator constructs
(identity, indicator, attack-pattern, malware, threat-actor, campaign,
relationship); fields that a kind does not use keep their defaults, exactly
as the underlying object library omits unset properties. -/

structure SObj where
  typ : String
  id : String
  created_by_ref : String := ""
  name : String := ""
  identity_class : String := ""
  description : Option String := none
  pattern : String := ""
  pattern_type : String := ""
  labels : List String := []
  confidence : Int := 0
  valid_from : String := ""
  valid_until : Option String := none
  external_source_name : String := ""
  external_id : String := ""
  external_url : String := ""
  malware_types : List String := []
  is_family : Bool := true
  capabilities : Option (List String) := none
  kill_chain_phases : Option (List String) := none
  aliases : Option (List String) := none
  threat_actor_types : List String := []
  roles : Option (List String) := none
  goals : Option (List String) := none
  sophistication : Option String := none
  resource_level : Option String := none
  primary_motivation : Option String := none
  secondary_motivations : Option (List String) := none
  personal_motivations : Option (List String) := none
  first_seen : Option String := none
  last_seen : Option String := none
  objective : Option String := none
  relationship_type : String := ""
  source_ref : String := ""
  target_ref : String := ""
deriving Repr, DecidableEq

/-- A STIX identifier `"<type>--<suffix>"`; the random UUID suffix of the
source is replaced by a deterministic counter value. -/
def mkId (typ : String) (n : Nat) : String := typ ++ "--" ++ toString n

/-- The generator session state: the active identity and the shared
`objects` and `relationships` lists of `STIXGenerator.__init__`, plus the
fresh-identifier counter standing in for UUID generation. -/
structure STIXGenerator where
  identity : SObj
  objects : List SObj
  relationships : List SObj
  nextId : Nat
deriving Repr, DecidableEq

/-- `STIXGenerator._create_default_identity`. -/
def createDefaultIdentity : SObj :=
  { typ := "identity", id := mkId "identity" 0, name := "STIX Generator",
    identity_class := "system",
    description := some "Automated STIX object generator" }

/-- `STIXGenerator.__init__`: use the supplied identity or the default one,
and start with empty object and relationship lists. -/
def STIXGenerator.init (identity? : Option SObj) : STIXGenerator :=
  { identity := identity?.getD createDefaultIdentity,
    objects := [], relationships := [], nextId := 1 }

/-- A `Relationship(...)` constructor call made with the session's identity
and a fresh identifier. -/
def mkRel (g : STIXGenerator) (rtype src tgt : String) : SObj :=
  { typ := "relationship", id := mkId "relationship" g.nextId,
    relationship_type := rtype, source_ref := src, target_ref := tgt,
    created_by_ref := g.identity.id }

/-- The keyword options of `generate_indicator` (defaults as in the source
signature). -/
structure IndicatorOpts where
  labels : Option (List String) := none
  pattern_type : String := "stix"
  valid_from : Option String := none
  valid_until : Option String := none
  confidence : Int := 75
  description : Option String := none
deriving Repr, DecidableEq

/-- The Indicator record built by `generate_indicator` for a detected IOC
type: name from the upper-cased type, the synthesized pattern, the supplied
or defaulted validity start (`now` stands for `datetime.now()`), labels and
description with their falsy-or-default treatment, and the session
identity as creator. -/
def indObj (g : STIXGenerator) (now ioc ioc_type : String)
    (opts : IndicatorOpts) : SObj :=
  { typ := "indicator", id := mkId "indicator" g.nextId,
    name := pyUpper ioc_type ++ ": " ++ ioc,
    pattern := create_indicator_pattern ioc ioc_type,
    pattern_type := opts.pattern_type,
    valid_from := opts.valid_from.getD now,
    valid_until := opts.valid_until,
    labels := pyOrDefaultList opts.labels ["malicious-activity"],
    confidence := opts.confidence,
    description := some (pyOrDefault opts.description
      ("Indicator for " ++ ioc_type ++ " " ++ ioc)),
    created_by_ref := g.identity.id }

/-- `STIXGenerator.generate_indicator`: classify the IOC, synthesize the
pattern, and build the Indicator.  The method returns the indicator
without touching the session's object list; only the fresh-id counter
(standing for consumed randomness) moves. -/
def generate_indicator (g : STIXGenerator) (now : String) (ioc : String)
    (opts : IndicatorOpts) : Option SObj × STIXGenerator :=
  match detect_ioc_type ioc with
  | none => (none, g)
  | some ioc_type =>
    (some (indObj g now ioc ioc_type opts), { g with nextId := g.nextId + 1 })

/-- True when the stripped line begins with `#` (Python
`ioc.startswith('#')`). -/
def startsWithHash (s : String) : Bool :=
  match s.data with
  | '#' :: _ => true
  | _ => false

/-- One iteration of the loop body of
`STIXGenerator.generate_indicators_from_file`: strip the line, skip blanks
and comments, and on success append the indicator to both the returned list
and the session's object list. -/
def fromFileStep (now : String) (opts : IndicatorOpts)
    (acc : List SObj × STIXGenerator) (line : String) : List SObj × STIXGenerator :=
  let ioc := pyStripString line
  if ioc ≠ "" ∧ ¬ startsWithHash ioc then
    match generate_indicator acc.2 now ioc opts with
    | (some ind, g') => (acc.1 ++ [ind], { g' with objects := g'.objects ++ [ind] })
    | (none, g') => (acc.1, g')
  else acc

/-- `STIXGenerator.generate_indicators_from_file`, with the file contents
supplied as the list of its lines. -/
def generate_indicators_from_file (g : STIXGenerator) (now : String)
    (lines : List String) (opts : IndicatorOpts) : List SObj × STIXGenerator :=
  lines.foldl (fromFileStep now opts) ([], g)

/-- `STIXGenerator.generate_attack_pattern`: reject a technique identifier
that `TECHNIQUE_PATTERN` does not match; otherwise build the AttackPattern
carrying the identifier as its external reference and append it to the
session's object list. -/
def apObj (g : STIXGenerator) (technique_id : String)
    (name? description? : Option String) : SObj :=
  { typ := "attack-pattern", id := mkId "attack-pattern" g.nextId,
    name := pyOrDefault name? ("MITRE ATT&CK Technique " ++ technique_id),
    description := some (pyOrDefault description?
      ("Attack pattern based on MITRE ATT&CK technique " ++ technique_id)),
    external_source_name := "mitre-attack", external_id := technique_id,
    external_url := "https://attack.mitre.org/techniques/" ++
      pyReplaceDotSlash technique_id ++ "/",
    created_by_ref := g.identity.id }

/-- The branch structure of `generate_attack_pattern`: reject on pattern
mismatch, otherwise build `apObj` and append it. -/
def generate_attack_pattern (g : STIXGenerator) (technique_id : String)
    (name? : Option String) (description? : Option String) :
    Option SObj × STIXGenerator :=
  if pyMatch techniqueCore technique_id.data then
    (some (apObj g technique_id name? description?),
     { g with objects := g.objects ++ [apObj g technique_id name? description?],
              nextId := g.nextId + 1 })
  else (none, g)

/-- The configuration record of `generate_malware` (a key absent from the
Python dict is `none`). -/
structure MalwareConfig where
  name : Option String := none
  malware_types : Option (List String) := none
  is_family : Option Bool := none
  description : Option String := none
  capabilities : Option (List String) := none
  kill_chain_phases : Option (List String) := none
  aliases : Option (List String) := none
deriving Repr, DecidableEq

/-- The Malware record built by `generate_malware`: required fields with
their documented defaults, optional fields copied when present. -/
def malObj (g : STIXGenerator) (config : MalwareConfig) : SObj :=
  { typ := "malware", id := mkId "malware" g.nextId,
    name := config.name.getD "Unknown Malware",
    malware_types := config.malware_types.getD ["unknown"],
    is_family := config.is_family.getD true,
    created_by_ref := g.identity.id,
    description := config.description,
    capabilities := config.capabilities,
    kill_chain_phases := config.kill_chain_phases,
    aliases := config.aliases }

/-- `STIXGenerator.generate_malware`: build the Malware and append it to
the session's object list. -/
def generate_malware (g : STIXGenerator) (config : MalwareConfig) :
    SObj × STIXGenerator :=
  (malObj g config,
   { g with objects := g.objects ++ [malObj g config], nextId := g.nextId + 1 })

/-- The configuration record of `generate_threat_actor`. -/
structure ThreatActorConfig where
  name : Option String := none
  threat_actor_types : Option (List String) := none
  description : Option String := none
  aliases : Option (List String) := none
  roles : Option (List String) := none
  goals : Option (List String) := none
  sophistication : Option String := none
  resource_level : Option String := none
  primary_motivation : Option String := none
  secondary_motivations : Option (List String) := none
  personal_motivations : Option (List String) := none
  observed_ttps : Option (List String) := none
deriving Repr, DecidableEq

/-- One iteration of the `observed_ttps` loop of `generate_threat_actor`:
generate the attack pattern and, when it succeeds, a `uses` relationship
from the actor, appended to both session lists. -/
def addTtp (actorId : String) (g : STIXGenerator) (ttp : String) : STIXGenerator :=
  match generate_attack_pattern g ttp none none with
  | (some ap, g') =>
      let rel := mkRel g' "uses" actorId ap.id
      { g' with relationships := g'.relationships ++ [rel],
                objects := g'.objects ++ [rel], nextId := g'.nextId + 1 }
  | (none, g') => g'

/-- The ThreatActor record built by `generate_threat_actor`: required
fields with their documented defaults, the optional whitelist copied when
present. -/
def taActor (g : STIXGenerator) (config : ThreatActorConfig) : SObj :=
  { typ := "threat-actor", id := mkId "threat-actor" g.nextId,
    name := config.name.getD "Unknown Threat Actor",
    threat_actor_types := config.threat_actor_types.getD ["unknown"],
    created_by_ref := g.identity.id,
    description := config.description, aliases := config.aliases,
    roles := config.roles, goals := config.goals,
    sophistication := config.sophistication,
    resource_level := config.resource_level,
    primary_motivation := config.primary_motivation,
    secondary_motivations := config.secondary_motivations,
    personal_motivations := config.personal_motivations }

/-- `STIXGenerator.generate_threat_actor`: build the ThreatActor, append it,
then derive attack patterns and `uses` relationships for any observed
TTPs. -/
def generate_threat_actor (g : STIXGenerator) (config : ThreatActorConfig) :
    SObj × STIXGenerator :=
  match config.observed_ttps with
  | some ttps =>
      (taActor g config,
       ttps.foldl (addTtp (taActor g config).id)
         { g with objects := g.objects ++ [taActor g config], nextId := g.nextId + 1 })
  | none =>
      (taActor g config,
       { g with objects := g.objects ++ [taActor g config], nextId := g.nextId + 1 })

/-- The configuration record of `generate_campaign`. -/
structure CampaignConfig where
  name : Option String := none
  description : Option String := none
  aliases : Option (List String) := none
  first_seen : Option String := none
  last_seen : Option String := none
  objective : Option String := none
  threat_actor : Option ThreatActorConfig := none
  malware : Option (List MalwareConfig) := none
deriving Repr, DecidableEq

/-- One iteration of the `malware` loop of `generate_campaign`: generate
the malware, then a `uses` relationship from the campaign, appended to both
session lists. -/
def addCampaignMalware (campaignId : String) (g : STIXGenerator)
    (mc : MalwareConfig) : STIXGenerator :=
  match generate_malware g mc with
  | (m, g') =>
      let rel := mkRel g' "uses" campaignId m.id
      { g' with relationships := g'.relationships ++ [rel],
                objects := g'.objects ++ [rel], nextId := g'.nextId + 1 }

/-- The Campaign record built by `generate_campaign`: name with its
default, the optional whitelist copied when present, and a `Z` suffix on
the seen timestamps normalized to an explicit UTC offset. -/
def campaignObj (g : STIXGenerator) (config : CampaignConfig) : SObj :=
  { typ := "campaign", id := mkId "campaign" g.nextId,
    name := config.name.getD "Unknown Campaign",
    created_by_ref := g.identity.id,
    description := config.description, aliases := config.aliases,
    first_seen := config.first_seen.map replaceZ,
    last_seen := config.last_seen.map replaceZ,
    objective := config.objective }

/-- The threat-actor stage of `generate_campaign`: when a `threat_actor`
record is present, generate it and add the `attributed-to` relationship to
both session lists. -/
def campaignActorStage (campaignId : String) (tac? : Option ThreatActorConfig)
    (g : STIXGenerator) : STIXGenerator :=
  match tac? with
  | some tac =>
      match generate_threat_actor g tac with
      | (actor, g') =>
          let rel := mkRel g' "attributed-to" campaignId actor.id
          { g' with relationships := g'.relationships ++ [rel],
                    objects := g'.objects ++ [rel], nextId := g'.nextId + 1 }
  | none => g

/-- The malware stage of `generate_campaign`: generate each malware record
with its `uses` relationship. -/
def campaignMalwareStage (campaignId : String) (mcs? : Option (List MalwareConfig))
    (g : STIXGenerator) : STIXGenerator :=
  match mcs? with
  | some mcs => mcs.foldl (addCampaignMalware campaignId) g
  | none => g

/-- `STIXGenerator.generate_campaign`: build the Campaign, append it, then
derive the nested threat actor with its `attributed-to` relationship and
the nested malware objects with their `uses` relationships. -/
def generate_campaign (g : STIXGenerator) (config : CampaignConfig) :
    SObj × STIXGenerator :=
  (campaignObj g config,
   campaignMalwareStage (campaignObj g config).id config.malware
     (campaignActorStage (campaignObj g config).id config.threat_actor
       { g with objects := g.objects ++ [campaignObj g config], nextId := g.nextId + 1 }))

/-! ## Bundles and validation -/

/-- A serialized STIX object as `validate_bundle` sees it after
`json.loads(bundle.serialize())`: a dictionary that may or may not carry
`type`, `id` and relationship endpoint fields. -/
structure VObj where
  type? : Option String := none
  id? : Option String := none
  source_ref? : Option String := none
  target_ref? : Option String := none
deriving Repr, DecidableEq

/-- A serialized bundle dictionary: its `type` tag and object list, either
of which a malformed bundle may lack. -/
structure VBundle where
  type? : Option String := none
  objects? : Option (List VObj) := none
deriving Repr, DecidableEq

/-- Serialization of a generated object: `type` and `id` are always
emitted; relationship endpoints only for relationships. -/
def toVObj (o : SObj) : VObj :=
  { type? := some o.typ, id? := some o.id,
    source_ref? := if o.typ = "relationship" then some o.source_ref else none,
    target_ref? := if o.typ = "relationship" then some o.target_ref else none }

/-- Modelled from the spec: the third-party `stix2.Bundle` constructor
called by `STIXGenerator.create_bundle` is not part of this repository's
sources; per the spec, `create_bundle()` wraps the current object list into
a bundle with type tag `"bundle"` and produces no result when the list is
empty. -/
def create_bundle (g : STIXGenerator) : Option VBundle :=
  match g.objects with
  | [] => none
  | objs => some { type? := some "bundle", objects? := some (objs.map toVObj) }

/-- The per-object check of `validate_bundle`: an error for a missing
`type` and an error for a missing `id`, in that order. -/
def objErrors (o : VObj) : List String :=
  (if o.type? = none then ["Object missing type: " ++ o.id?.getD "unknown"] else []) ++
  (if o.id? = none then ["Object missing id: " ++ o.type?.getD "unknown"] else [])

/-- The object loop of `validate_bundle`, accumulating errors in list
order. -/
def allObjErrors : List VObj → List String
  | [] => []
  | o :: rest => objErrors o ++ allObjErrors rest

/-- The checks of `STIXGenerator.validate_bundle` on a successfully parsed
bundle dictionary: bundle type tag, non-empty object list, then per-object
`type` and `id` presence, with `valid` true exactly when no error was
collected. -/
def validate_bundle_checks (b : VBundle) : Bool × List String :=
  let errors :=
    (if b.type? ≠ some "bundle" then ["Invalid bundle type"] else []) ++
    (if (b.objects?.getD []).isEmpty then ["Bundle has no objects"] else []) ++
    allObjErrors (b.objects?.getD [])
  (errors.isEmpty, errors)

/-- `STIXGenerator.validate_bundle`: the argument is the outcome of
serializing and re-parsing the bundle inside the `try` block — `Except.error`
carries the message of an exception raised while checking, which the
`except` clause converts into the sole error of an overall-invalid
report. -/
def validate_bundle (parsed : Except String VBundle) : Bool × List String :=
  match parsed with
  | .ok b => validate_bundle_checks b
  | .error e => (false, [e])

/-- Does `ref` resolve to the id of some object of the list? -/
def resolvedIn (objs : List VObj) (ref : String) : Bool :=
  objs.any (fun o => o.id? == some ref)

/-- Modelled from the spec: the reference-enforcement check performed by
the third-party `stix2validator` library (requested through
`create_options(enforce_refs=...)` in `validate_stix.py`; the library
itself is not part of this repository's sources).  For a relationship, each
endpoint reference that does not resolve to an object present in the same
bundle's object list yields one error. -/
def relRefErrors (objs : List VObj) (o : VObj) : List String :=
  if o.type? = some "relationship" then
    (match o.source_ref? with
     | some s => if resolvedIn objs s then [] else ["Unresolved source_ref: " ++ s]
     | none => []) ++
    (match o.target_ref? with
     | some t => if resolvedIn objs t then [] else ["Unresolved target_ref: " ++ t]
     | none => [])
  else []

/-- Modelled from the spec: the reference errors of every object of the
bundle, in list order. -/
def allRefErrors (objs : List VObj) : List VObj → List String
  | [] => []
  | o :: rest => relRefErrors objs o ++ allRefErrors objs rest

/-- Modelled from the spec: validation with an optional
reference-enforcement mode — the structural checks of the basic validator,
plus, exactly when enforcement is requested, the endpoint-resolution errors
of every relationship in the bundle. -/
def validate_bundle_opts (enforce_refs : Bool) (b : VBundle) : Bool × List String :=
  let errors :=
    (validate_bundle_checks b).2 ++
    (if enforce_refs then allRefErrors (b.objects?.getD []) (b.objects?.getD []) else [])
  (errors.isEmpty, errors)

/-! ## Generation sessions -/

/-- One public generator call of a session. -/
inductive GenOp where
  | indicator (now ioc : String) (opts : IndicatorOpts)
  | indicatorsFromFile (now : String) (lines : List String) (opts : IndicatorOpts)
  | attackPattern (tid : String) (name? desc? : Option String)
  | malware (c : MalwareConfig)
  | threatActor (c : ThreatActorConfig)
  | campaign (c : CampaignConfig)

/-- The session state after one generator call. -/
def applyOp (g : STIXGenerator) : GenOp → STIXGenerator
  | .indicator now ioc opts => (generate_indicator g now ioc opts).2
  | .indicatorsFromFile now lines opts => (generate_indicators_from_file g now lines opts).2
  | .attackPattern tid n d => (generate_attack_pattern g tid n d).2
  | .malware c => (generate_malware g c).2
  | .threatActor c => (generate_threat_actor g c).2
  | .campaign c => (generate_campaign g c).2

/-- The session state after a sequence of generator calls. -/
def runOps (g : STIXGenerator) (ops : List GenOp) : STIXGenerator :=
  ops.foldl applyOp g

/-- State extension: the second state appends some objects and some
relationships to the first, the appended relationships appearing, in
order, among the appended objects. -/
def ExtendsBy (g g' : STIXGenerator) : Prop :=
  g'.identity = g.identity ∧
  ∃ od rd, g'.objects = g.objects ++ od ∧
    g'.relationships = g.relationships ++ rd ∧ rd.Sublist od

/-! ## Concrete fixtures for witnesses and counterexamples -/

/-- A fresh session with the default identity. -/
def g0 : STIXGenerator := STIXGenerator.init none

/-- A campaign configuration with one threat-actor record (carrying one
observed TTP) and two malware records. -/
def campaignCfg : CampaignConfig :=
  { name := some "Operation Test",
    threat_actor := some { name := some "APT Example",
                           observed_ttps := some ["T1055"] },
    malware := some [{ name := some "BadRAT" }, { name := some "Dropper" }] }

/-- A well-formed one-object bundle. -/
def goodBundle : VBundle :=
  { type? := some "bundle",
    objects? := some [{ type? := some "indicator", id? := some "indicator--1" }] }

/-- A bundle whose only relationship points at a target id absent from the
bundle. -/
def danglingBundle : VBundle :=
  { type? := some "bundle",
    objects? := some
      [{ type? := some "campaign", id? := some "campaign--1" },
       { type? := some "relationship", id? := some "relationship--2",
         source_ref? := some "campaign--1", target_ref? := some "malware--9" }] }

/-! ## Utility lemmas -/

theorem head?_dropWhile_false {p : Char → Bool} {l : List Char} {c : Char}
    (h : (l.dropWhile p).head? = some c) : p c = false := by
  induction l with
  | nil => simp [List.dropWhile] at h
  | cons a t ih =>
    cases hp : p a with
    | true => rw [List.dropWhile, hp] at h; exact ih h
    | false =>
      rw [List.dropWhile, hp] at h
      simp only [List.head?_cons, Option.some.injEq] at h
      subst h
      exact hp

theorem pyStrip_getLast?_not_space {cs : List Char} {c : Char}
    (h : (pyStrip cs).getLast? = some c) : isPySpace c = false := by
  unfold pyStrip at h
  rw [List.getLast?_reverse] at h
  exact head?_dropWhile_false h

theorem pyMatch_pyStrip (core : List Char → Bool) (cs : List Char) :
    pyMatch core (pyStrip cs) = core (pyStrip cs) := by
  unfold pyMatch
  cases hl : (pyStrip cs).getLast? with
  | none => simp
  | some c =>
    have hc := pyStrip_getLast?_not_space hl
    have : c ≠ '\n' := by rintro rfl; simp [isPySpace] at hc
    simp [this]

theorem dropWhile_eq_self_of_all {p : Char → Bool} {l : List Char}
    (h : ∀ c ∈ l, p c = false) : l.dropWhile p = l := by
  cases l with
  | nil => rfl
  | cons a t => rw [List.dropWhile, h a (by simp)]

theorem pyStrip_eq_self {cs : List Char} (h : ∀ c ∈ cs, isPySpace c = false) :
    pyStrip cs = cs := by
  unfold pyStrip
  rw [dropWhile_eq_self_of_all h,
      dropWhile_eq_self_of_all (fun c hc => h c (List.mem_reverse.mp hc)),
      List.reverse_reverse]

theorem pySpace_cases {c : Char} (h : isPySpace c = true) :
    c = ' ' ∨ c = '\t' ∨ c = '\n' ∨ c = '\r' ∨ c = '\x0b' ∨ c = '\x0c' := by
  simp only [isPySpace, Bool.or_eq_true, beq_iff_eq] at h
  tauto

theorem hex_not_pySpace {c : Char} (h : isHexChar c = true) : isPySpace c = false := by
  cases hps : isPySpace c with
  | false => rfl
  | true =>
    rcases pySpace_cases hps with rfl | rfl | rfl | rfl | rfl | rfl <;>
      exact absurd h (by decide)

theorem digit_isHex {c : Char} (h : c.isDigit = true) : isHexChar c = true := by
  simp [isHexChar, h]

theorem splitChar_ne_nil (sep : Char) (cs : List Char) : splitChar sep cs ≠ [] := by
  induction cs with
  | nil => simp [splitChar]
  | cons c rest ih =>
    rw [splitChar]
    by_cases h : c = sep
    · simp [h]
    · simp only [if_neg h]
      cases hr : splitChar sep rest with
      | nil => simp
      | cons g gs => simp

theorem splitChar_no_sep {sep : Char} {cs : List Char}
    (h : ∀ c ∈ cs, c ≠ sep) : splitChar sep cs = [cs] := by
  induction cs with
  | nil => rfl
  | cons c rest ih =>
    rw [splitChar, if_neg (h c (by simp))]
    rw [ih (fun x hx => h x (by simp [hx]))]

theorem splitChar_append_sep {sep : Char} {g : List Char}
    (h : ∀ c ∈ g, c ≠ sep) (rest : List Char) :
    splitChar sep (g ++ sep :: rest) = g :: splitChar sep rest := by
  induction g with
  | nil => simp [splitChar]
  | cons c t ih =>
    rw [List.cons_append, splitChar, if_neg (h c (by simp))]
    rw [ih (fun x hx => h x (by simp [hx]))]

theorem mem_splitChar {sep : Char} {cs : List Char} {c : Char} (h : c ∈ cs) :
    c = sep ∨ ∃ g ∈ splitChar sep cs, c ∈ g := by
  induction cs with
  | nil => simp at h
  | cons a rest ih =>
    rw [splitChar]
    by_cases ha : a = sep
    · rcases List.mem_cons.mp h with rfl | hm
      · exact Or.inl ha
      · rcases ih hm with hc | ⟨g, hg, hcg⟩
        · exact Or.inl hc
        · exact Or.inr ⟨g, by simp [ha, hg], hcg⟩
    · simp only [if_neg ha]
      cases hr : splitChar sep rest with
      | nil => exact absurd hr (splitChar_ne_nil sep rest)
      | cons g gs =>
        rcases List.mem_cons.mp h with rfl | hm
        · exact Or.inr ⟨c :: g, by simp, by simp⟩
        · rcases ih hm with hc | ⟨g', hg', hcg'⟩
          · exact Or.inl hc
          · rw [hr] at hg'
            rcases List.mem_cons.mp hg' with rfl | hg'2
            · exact Or.inr ⟨a :: g', by simp, by simp [hcg']⟩
            · exact Or.inr ⟨g', by simp [hg'2], hcg'⟩

theorem string_data_append (a b : String) : (a ++ b).data = a.data ++ b.data :=
  String.data_append a b

theorem mkId_head {typ : String} {c : Char} {rest : List Char}
    (h : typ.data = c :: rest) (n : Nat) : (mkId typ n).data.head? = some c := by
  unfold mkId
  rw [string_data_append, string_data_append, h]
  rfl

theorem mkId_ne_of_head {t1 t2 : String} {c1 c2 : Char} {r1 r2 : List Char}
    (h1 : t1.data = c1 :: r1) (h2 : t2.data = c2 :: r2) (hne : c1 ≠ c2)
    (n m : Nat) : mkId t1 n ≠ mkId t2 m := by
  intro h
  have e1 := mkId_head h1 n
  rw [h, mkId_head h2 m] at e1
  exact hne (by injection e1 with e; exact e.symm)

theorem campaign_id_ne_actor_id (n m : Nat) :
    mkId "threat-actor" n ≠ mkId "campaign" m :=
  mkId_ne_of_head rfl rfl (by decide) n m

/-! ## Classification lemmas -/

theorem splitChar_no_hex_sep {sep : Char} (hsep : isHexChar sep = false)
    {cs : List Char} (h : ∀ c ∈ cs, isHexChar c = true) :
    splitChar sep cs = [cs] := by
  apply splitChar_no_sep
  intro c hc heq
  have hx := h c hc
  rw [heq, hsep] at hx
  exact absurd hx (by decide)

theorem ipv4Core_hex_false {cs : List Char} (h : ∀ c ∈ cs, isHexChar c = true) :
    ipv4Core cs = false := by
  unfold ipv4Core
  rw [splitChar_no_hex_sep (by decide) h]
  simp

theorem ipv6Core_hex_false {cs : List Char} (h : ∀ c ∈ cs, isHexChar c = true) :
    ipv6Core cs = false := by
  unfold ipv6Core
  rw [splitChar_no_hex_sep (by decide) h]
  simp

theorem domainCore_hex_false {cs : List Char} (h : ∀ c ∈ cs, isHexChar c = true) :
    domainCore cs = false := by
  unfold domainCore
  rw [splitChar_no_hex_sep (by decide) h]
  simp

theorem urlCore_shape {cs : List Char} (h : urlCore cs = true) :
    ∃ c0 rest, cs = c0 :: 't' :: rest := by
  unfold urlCore at h
  split at h
  · exact ⟨'h', _, rfl⟩
  · exact ⟨'h', _, rfl⟩
  · exact absurd h (by simp)

theorem urlCore_hex_false {cs : List Char} (h : ∀ c ∈ cs, isHexChar c = true) :
    urlCore cs = false := by
  cases hu : urlCore cs with
  | false => rfl
  | true =>
    obtain ⟨c0, rest, rfl⟩ := urlCore_shape hu
    exact absurd (h 't' (by simp)) (by decide)

theorem emailCore_hex_false {cs : List Char} (h : ∀ c ∈ cs, isHexChar c = true) :
    emailCore cs = false := by
  unfold emailCore
  rw [splitChar_no_hex_sep (by decide) h]

theorem hexCore_len {n : Nat} {cs : List Char} (hlen : cs.length = 64)
    (h : ∀ c ∈ cs, isHexChar c = true) : hexCore n cs = (64 == n) := by
  unfold hexCore
  rw [hlen]
  cases he : (64 == n) with
  | false => simp [he]
  | true => simp [he, List.all_eq_true]; exact h

theorem detect_priority_ipv4 {s : String} (h : ipv4Core (pyStrip s.data) = true) :
    detect_ioc_type s = some "ipv4" := by
  unfold detect_ioc_type
  simp only [pyMatch_pyStrip, h, if_true]

theorem detect_priority_ipv6 {s : String} (h1 : ipv4Core (pyStrip s.data) = false)
    (h2 : ipv6Core (pyStrip s.data) = true) : detect_ioc_type s = some "ipv6" := by
  unfold detect_ioc_type
  simp only [pyMatch_pyStrip, h1, h2, if_true, if_false, Bool.false_eq_true]

theorem detect_priority_domain {s : String} (h1 : ipv4Core (pyStrip s.data) = false)
    (h2 : ipv6Core (pyStrip s.data) = false) (h3 : domainCore (pyStrip s.data) = true) :
    detect_ioc_type s = some "domain" := by
  unfold detect_ioc_type
  simp only [pyMatch_pyStrip, h1, h2, h3, if_true, if_false, Bool.false_eq_true]

theorem detect_priority_url {s : String} (h1 : ipv4Core (pyStrip s.data) = false)
    (h2 : ipv6Core (pyStrip s.data) = false) (h3 : domainCore (pyStrip s.data) = false)
    (h4 : urlCore (pyStrip s.data) = true) : detect_ioc_type s = some "url" := by
  unfold detect_ioc_type
  simp only [pyMatch_pyStrip, h1, h2, h3, h4, if_true, if_false, Bool.false_eq_true]

theorem detect_priority_email {s : String} (h1 : ipv4Core (pyStrip s.data) = false)
    (h2 : ipv6Core (pyStrip s.data) = false) (h3 : domainCore (pyStrip s.data) = false)
    (h4 : urlCore (pyStrip s.data) = false) (h5 : emailCore (pyStrip s.data) = true) :
    detect_ioc_type s = some "email" := by
  unfold detect_ioc_type
  simp only [pyMatch_pyStrip, h1, h2, h3, h4, h5, if_true, if_false, Bool.false_eq_true]

theorem detect_priority_md5 {s : String} (h1 : ipv4Core (pyStrip s.data) = false)
    (h2 : ipv6Core (pyStrip s.data) = false) (h3 : domainCore (pyStrip s.data) = false)
    (h4 : urlCore (pyStrip s.data) = false) (h5 : emailCore (pyStrip s.data) = false)
    (h6 : hexCore 32 (pyStrip s.data) = true) : detect_ioc_type s = some "md5" := by
  unfold detect_ioc_type
  simp only [pyMatch_pyStrip, h1, h2, h3, h4, h5, h6, if_true, if_false, Bool.false_eq_true]

theorem detect_priority_sha1 {s : String} (h1 : ipv4Core (pyStrip s.data) = false)
    (h2 : ipv6Core (pyStrip s.data) = false) (h3 : domainCore (pyStrip s.data) = false)
    (h4 : urlCore (pyStrip s.data) = false) (h5 : emailCore (pyStrip s.data) = false)
    (h6 : hexCore 32 (pyStrip s.data) = false) (h7 : hexCore 40 (pyStrip s.data) = true) :
    detect_ioc_type s = some "sha1" := by
  unfold detect_ioc_type
  simp only [pyMatch_pyStrip, h1, h2, h3, h4, h5, h6, h7, if_true, if_false,
    Bool.false_eq_true]

theorem detect_priority_sha256 {s : String} (h1 : ipv4Core (pyStrip s.data) = false)
    (h2 : ipv6Core (pyStrip s.data) = false) (h3 : domainCore (pyStrip s.data) = false)
    (h4 : urlCore (pyStrip s.data) = false) (h5 : emailCore (pyStrip s.data) = false)
    (h6 : hexCore 32 (pyStrip s.data) = false) (h7 : hexCore 40 (pyStrip s.data) = false)
    (h8 : hexCore 64 (pyStrip s.data) = true) : detect_ioc_type s = some "sha256" := by
  unfold detect_ioc_type
  simp only [pyMatch_pyStrip, h1, h2, h3, h4, h5, h6, h7, h8, if_true, if_false,
    Bool.false_eq_true]

theorem detect_priority_none {s : String} (h1 : ipv4Core (pyStrip s.data) = false)
    (h2 : ipv6Core (pyStrip s.data) = false) (h3 : domainCore (pyStrip s.data) = false)
    (h4 : urlCore (pyStrip s.data) = false) (h5 : emailCore (pyStrip s.data) = false)
    (h6 : hexCore 32 (pyStrip s.data) = false) (h7 : hexCore 40 (pyStrip s.data) = false)
    (h8 : hexCore 64 (pyStrip s.data) = false) : detect_ioc_type s = none := by
  unfold detect_ioc_type
  simp only [pyMatch_pyStrip, h1, h2, h3, h4, h5, h6, h7, h8, if_true, if_false,
    Bool.false_eq_true]

theorem detect_range (s : String) :
    detect_ioc_type s ∈ ([none, some "ipv4", some "ipv6", some "domain", some "url",
      some "email", some "md5", some "sha1", some "sha256"] : List (Option String)) := by
  cases h1 : ipv4Core (pyStrip s.data) with
  | true => rw [detect_priority_ipv4 h1]; simp
  | false =>
  cases h2 : ipv6Core (pyStrip s.data) with
  | true => rw [detect_priority_ipv6 h1 h2]; simp
  | false =>
  cases h3 : domainCore (pyStrip s.data) with
  | true => rw [detect_priority_domain h1 h2 h3]; simp
  | false =>
  cases h4 : urlCore (pyStrip s.data) with
  | true => rw [detect_priority_url h1 h2 h3 h4]; simp
  | false =>
  cases h5 : emailCore (pyStrip s.data) with
  | true => rw [detect_priority_email h1 h2 h3 h4 h5]; simp
  | false =>
  cases h6 : hexCore 32 (pyStrip s.data) with
  | true => rw [detect_priority_md5 h1 h2 h3 h4 h5 h6]; simp
  | false =>
  cases h7 : hexCore 40 (pyStrip s.data) with
  | true => rw [detect_priority_sha1 h1 h2 h3 h4 h5 h6 h7]; simp
  | false =>
  cases h8 : hexCore 64 (pyStrip s.data) with
  | true => rw [detect_priority_sha256 h1 h2 h3 h4 h5 h6 h7 h8]; simp
  | false => rw [detect_priority_none h1 h2 h3 h4 h5 h6 h7 h8]; simp

theorem detect_sha256_of_hex64 {s : String} (hlen : s.data.length = 64)
    (h : ∀ c ∈ s.data, isHexChar c = true) : detect_ioc_type s = some "sha256" := by
  have hst : pyStrip s.data = s.data :=
    pyStrip_eq_self (fun c hc => hex_not_pySpace (h c hc))
  apply detect_priority_sha256 <;> rw [hst]
  · exact ipv4Core_hex_false h
  · exact ipv6Core_hex_false h
  · exact domainCore_hex_false h
  · exact urlCore_hex_false h
  · exact emailCore_hex_false h
  · rw [hexCore_len hlen h]; rfl
  · rw [hexCore_len hlen h]; rfl
  · rw [hexCore_len hlen h]; rfl

theorem detect_ipv4_of_quad {a b c d : List Char}
    (hna : a ≠ []) (hla : a.length ≤ 3) (hda : ∀ x ∈ a, x.isDigit = true)
    (hnb : b ≠ []) (hlb : b.length ≤ 3) (hdb : ∀ x ∈ b, x.isDigit = true)
    (hnc : c ≠ []) (hlc : c.length ≤ 3) (hdc : ∀ x ∈ c, x.isDigit = true)
    (hnd : d ≠ []) (hld : d.length ≤ 3) (hdd : ∀ x ∈ d, x.isDigit = true) :
    detect_ioc_type ⟨a ++ '.' :: (b ++ '.' :: (c ++ '.' :: d))⟩ = some "ipv4" := by
  set cs : List Char := a ++ '.' :: (b ++ '.' :: (c ++ '.' :: d)) with hcs
  have hmem : ∀ x ∈ cs, x = '.' ∨ x.isDigit = true := by
    intro x hx
    rw [hcs] at hx
    simp only [List.mem_append, List.mem_cons] at hx
    rcases hx with hx | rfl | hx | rfl | hx | rfl | hx
    · exact Or.inr (hda x hx)
    · exact Or.inl rfl
    · exact Or.inr (hdb x hx)
    · exact Or.inl rfl
    · exact Or.inr (hdc x hx)
    · exact Or.inl rfl
    · exact Or.inr (hdd x hx)
  have hst : pyStrip ((⟨cs⟩ : String)).data = cs := by
    apply pyStrip_eq_self
    intro x hx
    rcases hmem x hx with rfl | hd
    · decide
    · exact hex_not_pySpace (digit_isHex hd)
  have hdig_ne : ∀ (g : List Char), (∀ x ∈ g, x.isDigit = true) → ∀ x ∈ g, x ≠ '.' := by
    intro g hg x hx heq
    exact absurd (hg x hx) (by rw [heq]; decide)
  have hsplit : splitChar '.' cs = [a, b, c, d] := by
    rw [hcs, splitChar_append_sep (hdig_ne a hda), splitChar_append_sep (hdig_ne b hdb),
      splitChar_append_sep (hdig_ne c hdc), splitChar_no_sep (hdig_ne d hdd)]
  have hgrp : ∀ g : List Char, g ≠ [] → g.length ≤ 3 → (∀ x ∈ g, x.isDigit = true) →
      (decide (1 ≤ g.length) && decide (g.length ≤ 3) && g.all Char.isDigit) = true := by
    intro g hn hl hd
    simp only [Bool.and_eq_true, decide_eq_true_eq, List.all_eq_true]
    exact ⟨⟨List.length_pos.mpr hn, hl⟩, hd⟩
  apply detect_priority_ipv4
  rw [hst]
  unfold ipv4Core
  rw [hsplit]
  rw [Bool.and_eq_true]
  constructor
  · rfl
  · apply List.all_eq_true.mpr
    intro g hg
    simp only [List.mem_cons, List.not_mem_nil, or_false] at hg
    rcases hg with hga | hgb | hgc | hgd
    · rw [hga]; exact hgrp a hna hla hda
    · rw [hgb]; exact hgrp b hnb hlb hdb
    · rw [hgc]; exact hgrp c hnc hlc hdc
    · rw [hgd]; exact hgrp d hnd hld hdd

/-! ## Generator state lemmas -/

theorem generate_attack_pattern_none (g : STIXGenerator) (tid : String)
    (n d : Option String) (h : pyMatch techniqueCore tid.data = false) :
    generate_attack_pattern g tid n d = (none, g) := by
  unfold generate_attack_pattern
  simp [h]

theorem generate_attack_pattern_some (g : STIXGenerator) (tid : String)
    (n d : Option String) (h : pyMatch techniqueCore tid.data = true) :
    generate_attack_pattern g tid n d =
      (some (apObj g tid n d),
       { g with objects := g.objects ++ [apObj g tid n d], nextId := g.nextId + 1 }) := by
  unfold generate_attack_pattern
  simp only [h, if_true]

theorem generate_malware_spec (g : STIXGenerator) (c : MalwareConfig) :
    generate_malware g c =
      (malObj g c,
       { g with objects := g.objects ++ [malObj g c], nextId := g.nextId + 1 }) := rfl

theorem addTtp_eq_reject (aid : String) (g : STIXGenerator) (t : String)
    (h : pyMatch techniqueCore t.data = false) : addTtp aid g t = g := by
  unfold addTtp
  rw [generate_attack_pattern_none g t none none h]

theorem addTtp_spec (aid : String) (g : STIXGenerator) (t : String) :
    ∃ od rd, (addTtp aid g t).objects = g.objects ++ od ∧
      (addTtp aid g t).relationships = g.relationships ++ rd ∧
      (addTtp aid g t).identity = g.identity ∧
      rd.Sublist od ∧
      ∀ r ∈ rd, r.typ = "relationship" ∧ r.relationship_type = "uses" ∧
        r.source_ref = aid ∧ r.created_by_ref = g.identity.id := by
  cases h : pyMatch techniqueCore t.data with
  | false =>
    rw [addTtp_eq_reject aid g t h]
    exact ⟨[], [], by simp, by simp, rfl, by simp, by simp⟩
  | true =>
    refine ⟨[apObj g t none none,
             mkRel { g with objects := g.objects ++ [apObj g t none none],
                            nextId := g.nextId + 1 } "uses" aid (apObj g t none none).id],
            [mkRel { g with objects := g.objects ++ [apObj g t none none],
                            nextId := g.nextId + 1 } "uses" aid (apObj g t none none).id],
            ?_, ?_, ?_, List.sublist_cons_self _ _, ?_⟩
    · simp [addTtp, generate_attack_pattern, h]
    · simp [addTtp, generate_attack_pattern, h]
    · simp [addTtp, generate_attack_pattern, h]
    · intro r hr
      rcases List.mem_singleton.mp hr with rfl
      exact ⟨rfl, rfl, rfl, rfl⟩

theorem foldl_addTtp_spec (aid : String) (ttps : List String) (g : STIXGenerator) :
    ∃ od rd, (ttps.foldl (addTtp aid) g).objects = g.objects ++ od ∧
      (ttps.foldl (addTtp aid) g).relationships = g.relationships ++ rd ∧
      (ttps.foldl (addTtp aid) g).identity = g.identity ∧
      rd.Sublist od ∧
      ∀ r ∈ rd, r.typ = "relationship" ∧ r.relationship_type = "uses" ∧
        r.source_ref = aid ∧ r.created_by_ref = g.identity.id := by
  induction ttps generalizing g with
  | nil => exact ⟨[], [], by simp, by simp, rfl, by simp, by simp⟩
  | cons t ts ih =>
    obtain ⟨od1, rd1, ho1, hr1, hi1, hs1, hp1⟩ := addTtp_spec aid g t
    obtain ⟨od2, rd2, ho2, hr2, hi2, hs2, hp2⟩ := ih (addTtp aid g t)
    refine ⟨od1 ++ od2, rd1 ++ rd2, ?_, ?_, ?_, hs1.append hs2, ?_⟩
    · rw [List.foldl_cons, ho2, ho1, List.append_assoc]
    · rw [List.foldl_cons, hr2, hr1, List.append_assoc]
    · rw [List.foldl_cons, hi2, hi1]
    · intro r hr
      rcases List.mem_append.mp hr with hm | hm
      · exact hp1 r hm
      · obtain ⟨ht, hu, hsrc, hcb⟩ := hp2 r hm
        rw [hi1] at hcb
        exact ⟨ht, hu, hsrc, hcb⟩

theorem generate_threat_actor_spec (g : STIXGenerator) (c : ThreatActorConfig) :
    ∃ actor g' od rd,
      generate_threat_actor g c = (actor, g') ∧
      actor.typ = "threat-actor" ∧ actor.id = mkId "threat-actor" g.nextId ∧
      actor.created_by_ref = g.identity.id ∧ actor.relationship_type = "" ∧
      g'.objects = g.objects ++ actor :: od ∧
      g'.relationships = g.relationships ++ rd ∧
      g'.identity = g.identity ∧
      rd.Sublist od ∧
      ∀ r ∈ rd, r.typ = "relationship" ∧ r.relationship_type = "uses" ∧
        r.source_ref = actor.id ∧ r.created_by_ref = g.identity.id := by
  cases hc : c.observed_ttps with
  | none =>
    refine ⟨taActor g c,
      { g with objects := g.objects ++ [taActor g c], nextId := g.nextId + 1 },
      [], [], ?_, rfl, rfl, rfl, rfl, by simp, by simp, rfl, by simp, by simp⟩
    unfold generate_threat_actor
    rw [hc]
  | some ttps =>
    obtain ⟨od, rd, ho, hr, hi, hs, hp⟩ :=
      foldl_addTtp_spec (taActor g c).id ttps
        { g with objects := g.objects ++ [taActor g c], nextId := g.nextId + 1 }
    refine ⟨taActor g c,
      ttps.foldl (addTtp (taActor g c).id)
        { g with objects := g.objects ++ [taActor g c], nextId := g.nextId + 1 },
      od, rd, ?_, rfl, rfl, rfl, rfl, ?_, ?_, ?_, hs, ?_⟩
    · unfold generate_threat_actor
      rw [hc]
    · rw [ho]; simp
    · rw [hr]
    · rw [hi]
    · exact hp

theorem addCampaignMalware_spec (cid : String) (g : STIXGenerator) (mc : MalwareConfig) :
    ∃ m rel,
      (addCampaignMalware cid g mc).objects = g.objects ++ [m, rel] ∧
      (addCampaignMalware cid g mc).relationships = g.relationships ++ [rel] ∧
      (addCampaignMalware cid g mc).identity = g.identity ∧
      m.typ = "malware" ∧ m.id = mkId "malware" g.nextId ∧
      m.created_by_ref = g.identity.id ∧ m.relationship_type = "" ∧
      rel.typ = "relationship" ∧ rel.relationship_type = "uses" ∧
      rel.source_ref = cid ∧ rel.target_ref = m.id ∧
      rel.created_by_ref = g.identity.id := by
  refine ⟨malObj g mc,
    mkRel { g with objects := g.objects ++ [malObj g mc], nextId := g.nextId + 1 }
      "uses" cid (malObj g mc).id,
    ?_, ?_, ?_, rfl, rfl, rfl, rfl, rfl, rfl, rfl, rfl, rfl⟩
  · simp [addCampaignMalware, generate_malware]
  · simp [addCampaignMalware, generate_malware]
  · simp [addCampaignMalware, generate_malware]

theorem campaignActorStage_none (cid : String) (g : STIXGenerator) :
    campaignActorStage cid none g = g := rfl

theorem campaignActorStage_spec (cid : String) (tac : ThreatActorConfig)
    (g : STIXGenerator) :
    ∃ actor od rd rel,
      (campaignActorStage cid (some tac) g).objects =
        g.objects ++ (actor :: od ++ [rel]) ∧
      (campaignActorStage cid (some tac) g).relationships =
        g.relationships ++ (rd ++ [rel]) ∧
      (campaignActorStage cid (some tac) g).identity = g.identity ∧
      (rd ++ [rel]).Sublist (actor :: od ++ [rel]) ∧
      actor.typ = "threat-actor" ∧ actor.id = mkId "threat-actor" g.nextId ∧
      actor.created_by_ref = g.identity.id ∧ actor.relationship_type = "" ∧
      rel.typ = "relationship" ∧ rel.relationship_type = "attributed-to" ∧
      rel.source_ref = cid ∧ rel.target_ref = actor.id ∧
      rel.created_by_ref = g.identity.id ∧
      (∀ r ∈ rd, r.typ = "relationship" ∧ r.relationship_type = "uses" ∧
        r.source_ref = actor.id ∧ r.created_by_ref = g.identity.id) := by
  obtain ⟨actor, gA, od, rd, hTA, hty, hid, hcb, hrt, ho, hr, hi, hs, hp⟩ :=
    generate_threat_actor_spec g tac
  have key : campaignActorStage cid (some tac) g =
      { gA with relationships := gA.relationships ++ [mkRel gA "attributed-to" cid actor.id],
                objects := gA.objects ++ [mkRel gA "attributed-to" cid actor.id],
                nextId := gA.nextId + 1 } := by
    simp only [campaignActorStage, hTA]
  rw [key]
  refine ⟨actor, od, rd, mkRel gA "attributed-to" cid actor.id,
    ?_, ?_, ?_, ?_, hty, hid, hcb, hrt, rfl, rfl, rfl, rfl, ?_, hp⟩
  · simp [ho]
  · simp [hr]
  · exact hi
  · exact (hs.cons actor).append (List.Sublist.refl [mkRel gA "attributed-to" cid actor.id])
  · show gA.identity.id = g.identity.id
    rw [hi]

theorem campaignMalwareStage_none (cid : String) (g : STIXGenerator) :
    campaignMalwareStage cid none g = g := rfl

theorem campaignMalwareStage_some (cid : String) (mcs : List MalwareConfig)
    (g : STIXGenerator) :
    campaignMalwareStage cid (some mcs) g = mcs.foldl (addCampaignMalware cid) g := rfl

/-! ## Session extension machinery -/

theorem extendsBy_refl (g : STIXGenerator) : ExtendsBy g g :=
  ⟨rfl, [], [], by simp, by simp, by simp⟩

theorem extendsBy_trans {g1 g2 g3 : STIXGenerator}
    (h12 : ExtendsBy g1 g2) (h23 : ExtendsBy g2 g3) : ExtendsBy g1 g3 := by
  obtain ⟨hi1, od1, rd1, ho1, hr1, hs1⟩ := h12
  obtain ⟨hi2, od2, rd2, ho2, hr2, hs2⟩ := h23
  refine ⟨hi2.trans hi1, od1 ++ od2, rd1 ++ rd2, ?_, ?_, hs1.append hs2⟩
  · rw [ho2, ho1, List.append_assoc]
  · rw [hr2, hr1, List.append_assoc]

theorem mem_objects_of_extendsBy {g g' : STIXGenerator} {x : SObj}
    (h : ExtendsBy g g') (hm : x ∈ g.objects) : x ∈ g'.objects := by
  obtain ⟨-, od, rd, ho, -, -⟩ := h
  rw [ho]
  exact List.mem_append_left od hm

theorem extendsBy_foldl {α : Type} (f : STIXGenerator → α → STIXGenerator)
    (hf : ∀ g x, ExtendsBy g (f g x)) (l : List α) (g : STIXGenerator) :
    ExtendsBy g (l.foldl f g) := by
  induction l generalizing g with
  | nil => exact extendsBy_refl g
  | cons x xs ih => exact extendsBy_trans (hf g x) (ih (f g x))

theorem generate_indicator_state (g : STIXGenerator) (now ioc : String)
    (opts : IndicatorOpts) :
    (generate_indicator g now ioc opts).2.objects = g.objects ∧
    (generate_indicator g now ioc opts).2.relationships = g.relationships ∧
    (generate_indicator g now ioc opts).2.identity = g.identity := by
  unfold generate_indicator
  cases detect_ioc_type ioc <;> simp

theorem extendsBy_indicator (g : STIXGenerator) (now ioc : String)
    (opts : IndicatorOpts) : ExtendsBy g (generate_indicator g now ioc opts).2 := by
  obtain ⟨ho, hr, hi⟩ := generate_indicator_state g now ioc opts
  exact ⟨hi, [], [], by simp [ho], by simp [hr], by simp⟩

theorem extendsBy_fromFileStep (now : String) (opts : IndicatorOpts)
    (acc : List SObj × STIXGenerator) (line : String) :
    ExtendsBy acc.2 (fromFileStep now opts acc line).2 := by
  simp only [fromFileStep]
  split
  · split
    next ind g' heq =>
      have h2 : g' = (generate_indicator acc.2 now (pyStripString line) opts).2 := by
        rw [heq]
      obtain ⟨ho, hr, hi⟩ := generate_indicator_state acc.2 now (pyStripString line) opts
      rw [← h2] at ho hr hi
      exact ⟨hi, [ind], [], by simp [ho], by simp [hr], by simp⟩
    next g' heq =>
      have h2 : g' = (generate_indicator acc.2 now (pyStripString line) opts).2 := by
        rw [heq]
      obtain ⟨ho, hr, hi⟩ := generate_indicator_state acc.2 now (pyStripString line) opts
      rw [← h2] at ho hr hi
      exact ⟨hi, [], [], by simp [ho], by simp [hr], by simp⟩
  · exact extendsBy_refl _

theorem extendsBy_fromFile (now : String) (opts : IndicatorOpts)
    (lines : List String) (acc : List SObj × STIXGenerator) :
    ExtendsBy acc.2 (lines.foldl (fromFileStep now opts) acc).2 := by
  induction lines generalizing acc with
  | nil => exact extendsBy_refl _
  | cons l ls ih =>
    exact extendsBy_trans (extendsBy_fromFileStep now opts acc l)
      (ih (fromFileStep now opts acc l))

theorem extendsBy_attackPattern (g : STIXGenerator) (tid : String)
    (n d : Option String) : ExtendsBy g (generate_attack_pattern g tid n d).2 := by
  cases h : pyMatch techniqueCore tid.data with
  | false => rw [generate_attack_pattern_none g tid n d h]; exact extendsBy_refl g
  | true =>
    rw [generate_attack_pattern_some g tid n d h]
    exact ⟨rfl, [apObj g tid n d], [], rfl, by simp, by simp⟩

theorem extendsBy_malware (g : STIXGenerator) (c : MalwareConfig) :
    ExtendsBy g (generate_malware g c).2 :=
  ⟨rfl, [malObj g c], [], rfl, by simp [generate_malware], by simp⟩

theorem extendsBy_threatActor (g : STIXGenerator) (c : ThreatActorConfig) :
    ExtendsBy g (generate_threat_actor g c).2 := by
  obtain ⟨actor, g', od, rd, heq, -, -, -, -, ho, hr, hi, hs, -⟩ :=
    generate_threat_actor_spec g c
  rw [heq]
  exact ⟨hi, actor :: od, rd, ho, hr, hs.cons actor⟩

theorem extendsBy_addTtp (aid : String) (g : STIXGenerator) (t : String) :
    ExtendsBy g (addTtp aid g t) := by
  obtain ⟨od, rd, ho, hr, hi, hs, -⟩ := addTtp_spec aid g t
  exact ⟨hi, od, rd, ho, hr, hs⟩

theorem extendsBy_addCampaignMalware (cid : String) (g : STIXGenerator)
    (mc : MalwareConfig) : ExtendsBy g (addCampaignMalware cid g mc) := by
  obtain ⟨m, rel, ho, hr, hi, -, -, -, -, -, -, -, -, -⟩ := addCampaignMalware_spec cid g mc
  exact ⟨hi, [m, rel], [rel], ho, hr, List.sublist_cons_self m [rel]⟩

theorem extendsBy_campaignActorStage (cid : String) (tac? : Option ThreatActorConfig)
    (g : STIXGenerator) : ExtendsBy g (campaignActorStage cid tac? g) := by
  cases tac? with
  | none => exact extendsBy_refl g
  | some tac =>
    obtain ⟨actor, od, rd, rel, ho, hr, hi, hs, -⟩ := campaignActorStage_spec cid tac g
    exact ⟨hi, actor :: od ++ [rel], rd ++ [rel], ho, hr, hs⟩

theorem extendsBy_campaignMalwareStage (cid : String)
    (mcs? : Option (List MalwareConfig)) (g : STIXGenerator) :
    ExtendsBy g (campaignMalwareStage cid mcs? g) := by
  cases mcs? with
  | none => exact extendsBy_refl g
  | some mcs =>
    rw [campaignMalwareStage_some]
    exact extendsBy_foldl _ (extendsBy_addCampaignMalware cid) mcs g

theorem extendsBy_campaign (g : STIXGenerator) (c : CampaignConfig) :
    ExtendsBy g (generate_campaign g c).2 := by
  unfold generate_campaign
  dsimp only
  refine extendsBy_trans ?_ (extendsBy_trans (extendsBy_campaignActorStage _ _ _)
    (extendsBy_campaignMalwareStage _ _ _))
  exact ⟨rfl, [campaignObj g c], [], rfl, by simp, by simp⟩

theorem extendsBy_applyOp (g : STIXGenerator) (op : GenOp) :
    ExtendsBy g (applyOp g op) := by
  cases op with
  | indicator now ioc opts => exact extendsBy_indicator g now ioc opts
  | indicatorsFromFile now lines opts => exact extendsBy_fromFile now opts lines ([], g)
  | attackPattern tid n d => exact extendsBy_attackPattern g tid n d
  | malware c => exact extendsBy_malware g c
  | threatActor c => exact extendsBy_threatActor g c
  | campaign c => exact extendsBy_campaign g c

theorem relationships_sublist_of_runOps (g : STIXGenerator)
    (hg : g.relationships.Sublist g.objects) (ops : List GenOp) :
    (runOps g ops).relationships.Sublist (runOps g ops).objects := by
  induction ops generalizing g with
  | nil => exact hg
  | cons op ops ih =>
    apply ih
    obtain ⟨-, od, rd, ho, hr, hs⟩ := extendsBy_applyOp g op
    rw [ho, hr]
    exact hg.append hs

theorem fromFileStep_mem (now : String) (opts : IndicatorOpts)
    (acc : List SObj × STIXGenerator) (line : String)
    (hinv : ∀ i ∈ acc.1, i ∈ acc.2.objects) :
    ∀ i ∈ (fromFileStep now opts acc line).1,
      i ∈ (fromFileStep now opts acc line).2.objects := by
  simp only [fromFileStep]
  split
  · split
    next ind g' heq =>
      intro i hi
      have h2 : g' = (generate_indicator acc.2 now (pyStripString line) opts).2 := by
        rw [heq]
      obtain ⟨ho, -, -⟩ := generate_indicator_state acc.2 now (pyStripString line) opts
      rw [← h2] at ho
      simp only [List.mem_append, List.mem_singleton] at hi ⊢
      rcases hi with hm | hm
      · exact Or.inl (ho ▸ hinv i hm)
      · exact Or.inr hm
    next g' heq =>
      intro i hi
      have h2 : g' = (generate_indicator acc.2 now (pyStripString line) opts).2 := by
        rw [heq]
      obtain ⟨ho, -, -⟩ := generate_indicator_state acc.2 now (pyStripString line) opts
      rw [← h2] at ho
      rw [ho]
      exact hinv i hi
  · exact hinv

theorem fromFile_mem (now : String) (opts : IndicatorOpts) (lines : List String)
    (acc : List SObj × STIXGenerator)
    (hinv : ∀ i ∈ acc.1, i ∈ acc.2.objects) :
    ∀ i ∈ (lines.foldl (fromFileStep now opts) acc).1,
      i ∈ (lines.foldl (fromFileStep now opts) acc).2.objects := by
  induction lines generalizing acc with
  | nil => exact hinv
  | cons l ls ih => exact ih _ (fromFileStep_mem now opts acc l hinv)

/-! ## Validator lemmas -/

theorem mem_allObjErrors {objs : List VObj} {o : VObj} (ho : o ∈ objs)
    {e : String} (he : e ∈ objErrors o) : e ∈ allObjErrors objs := by
  induction objs with
  | nil => simp at ho
  | cons x rest ih =>
    rw [allObjErrors]
    rcases List.mem_cons.mp ho with rfl | hm
    · exact List.mem_append_left _ he
    · exact List.mem_append_right _ (ih hm)

theorem allObjErrors_nil {objs : List VObj}
    (h : ∀ o ∈ objs, o.type?.isSome ∧ o.id?.isSome) : allObjErrors objs = [] := by
  induction objs with
  | nil => rfl
  | cons x rest ih =>
    rw [allObjErrors]
    obtain ⟨ht, hi⟩ := h x (by simp)
    have hoe : objErrors x = [] := by
      unfold objErrors
      rw [if_neg (by simp [Option.isSome_iff_exists] at ht; obtain ⟨v, hv⟩ := ht; simp [hv]),
          if_neg (by simp [Option.isSome_iff_exists] at hi; obtain ⟨v, hv⟩ := hi; simp [hv])]
      rfl
    rw [hoe, ih (fun o hm => h o (by simp [hm]))]
    rfl

theorem mem_allRefErrors {objs l : List VObj} {o : VObj} (ho : o ∈ l)
    {e : String} (he : e ∈ relRefErrors objs o) : e ∈ allRefErrors objs l := by
  induction l with
  | nil => simp at ho
  | cons x rest ih =>
    rw [allRefErrors]
    rcases List.mem_cons.mp ho with rfl | hm
    · exact List.mem_append_left _ he
    · exact List.mem_append_right _ (ih hm)

theorem validate_checks_no_objects {b : VBundle}
    (hempty : (b.objects?.getD []).isEmpty = true) :
    (validate_bundle_checks b).1 = false ∧
    "Bundle has no objects" ∈ (validate_bundle_checks b).2 := by
  have hmem : "Bundle has no objects" ∈ (validate_bundle_checks b).2 := by
    show _ ∈ (_ ++ _ ++ _)
    apply List.mem_append_left
    apply List.mem_append_right
    rw [if_pos hempty]
    simp
  constructor
  · show (validate_bundle_checks b).2.isEmpty = false
    rcases h : (validate_bundle_checks b).2 with - | -
    · rw [h] at hmem; simp at hmem
    · simp
  · exact hmem

/-! ## Claim theorems -/

/-- Claim C1: IOC classification returns exactly one tag out of
ipv4/ipv6/domain/url/email/md5/sha1/sha256 or nothing, and, being a total
Lean function, never throws; the format tests run in the fixed priority
order ipv4, ipv6, domain, url, email, md5, sha1, sha256 with the first
match winning; every dotted-quad of four 1–3-digit groups yields `ipv4`;
every 64-hex-digit string yields `sha256`; and `"not-an-ioc"` yields
none. -/
theorem claim_C1_detect_ioc_type :
    (∀ s : String, detect_ioc_type s ∈
      ([none, some "ipv4", some "ipv6", some "domain", some "url",
        some "email", some "md5", some "sha1", some "sha256"] : List (Option String))) ∧
    (∀ s : String,
      (ipv4Core (pyStrip s.data) = true → detect_ioc_type s = some "ipv4") ∧
      (ipv4Core (pyStrip s.data) = false → ipv6Core (pyStrip s.data) = true →
        detect_ioc_type s = some "ipv6") ∧
      (ipv4Core (pyStrip s.data) = false → ipv6Core (pyStrip s.data) = false →
        domainCore (pyStrip s.data) = true → detect_ioc_type s = some "domain") ∧
      (ipv4Core (pyStrip s.data) = false → ipv6Core (pyStrip s.data) = false →
        domainCore (pyStrip s.data) = false → urlCore (pyStrip s.data) = true →
        detect_ioc_type s = some "url") ∧
      (ipv4Core (pyStrip s.data) = false → ipv6Core (pyStrip s.data) = false →
        domainCore (pyStrip s.data) = false → urlCore (pyStrip s.data) = false →
        emailCore (pyStrip s.data) = true → detect_ioc_type s = some "email") ∧
      (ipv4Core (pyStrip s.data) = false → ipv6Core (pyStrip s.data) = false →
        domainCore (pyStrip s.data) = false → urlCore (pyStrip s.data) = false →
        emailCore (pyStrip s.data) = false → hexCore 32 (pyStrip s.data) = true →
        detect_ioc_type s = some "md5") ∧
      (ipv4Core (pyStrip s.data) = false → ipv6Core (pyStrip s.data) = false →
        domainCore (pyStrip s.data) = false → urlCore (pyStrip s.data) = false →
        emailCore (pyStrip s.data) = false → hexCore 32 (pyStrip s.data) = false →
        hexCore 40 (pyStrip s.data) = true → detect_ioc_type s = some "sha1") ∧
      (ipv4Core (pyStrip s.data) = false → ipv6Core (pyStrip s.data) = false →
        domainCore (pyStrip s.data) = false → urlCore (pyStrip s.data) = false →
        emailCore (pyStrip s.data) = false → hexCore 32 (pyStrip s.data) = false →
        hexCore 40 (pyStrip s.data) = false → hexCore 64 (pyStrip s.data) = true →
        detect_ioc_type s = some "sha256") ∧
      (ipv4Core (pyStrip s.data) = false → ipv6Core (pyStrip s.data) = false →
        domainCore (pyStrip s.data) = false → urlCore (pyStrip s.data) = false →
        emailCore (pyStrip s.data) = false → hexCore 32 (pyStrip s.data) = false →
        hexCore 40 (pyStrip s.data) = false → hexCore 64 (pyStrip s.data) = false →
        detect_ioc_type s = none)) ∧
    (∀ a b c d : List Char,
      a ≠ [] → a.length ≤ 3 → (∀ x ∈ a, x.isDigit = true) →
      b ≠ [] → b.length ≤ 3 → (∀ x ∈ b, x.isDigit = true) →
      c ≠ [] → c.length ≤ 3 → (∀ x ∈ c, x.isDigit = true) →
      d ≠ [] → d.length ≤ 3 → (∀ x ∈ d, x.isDigit = true) →
      detect_ioc_type ⟨a ++ '.' :: (b ++ '.' :: (c ++ '.' :: d))⟩ = some "ipv4") ∧
    (∀ s : String, s.data.length = 64 → (∀ c ∈ s.data, isHexChar c = true) →
      detect_ioc_type s = some "sha256") ∧
    detect_ioc_type "not-an-ioc" = none := by
  refine ⟨detect_range, ?_, ?_, ?_, by decide⟩
  · intro s
    exact ⟨detect_priority_ipv4, detect_priority_ipv6, detect_priority_domain,
      detect_priority_url, detect_priority_email, detect_priority_md5,
      detect_priority_sha1, detect_priority_sha256, detect_priority_none⟩
  · intro a b c d hna hla hda hnb hlb hdb hnc hlc hdc hnd hld hdd
    exact detect_ipv4_of_quad hna hla hda hnb hlb hdb hnc hlc hdc hnd hld hdd
  · intro s hlen hhex
    exact detect_sha256_of_hex64 hlen hhex

/-- Witness for C1 at concrete inputs: the dotted-quad `1.92.3.4` (built
from its digit groups) classifies as ipv4, a concrete 64-hex-digit string
classifies as sha256, and the empty-IPv4 / matching-IPv6 priority case
classifies `1:2:3:4:5:6:7:8` as ipv6. -/
theorem claim_C1_witness :
    detect_ioc_type ⟨['1'] ++ '.' :: (['9', '2'] ++ '.' :: (['3'] ++ '.' :: ['4']))⟩ =
      some "ipv4" ∧
    detect_ioc_type "e3b0c44298fc1c149afbf4c8996fb92427ae41e4649b934ca495991b7852b855" =
      some "sha256" ∧
    detect_ioc_type "1:2:3:4:5:6:7:8" = some "ipv6" :=
  ⟨claim_C1_detect_ioc_type.2.2.1 ['1'] ['9', '2'] ['3'] ['4']
      (by decide) (by decide) (by decide) (by decide) (by decide) (by decide)
      (by decide) (by decide) (by decide) (by decide) (by decide) (by decide),
   claim_C1_detect_ioc_type.2.2.2.1
     "e3b0c44298fc1c149afbf4c8996fb92427ae41e4649b934ca495991b7852b855"
     (by decide) (by decide),
   (claim_C1_detect_ioc_type.2.1 "1:2:3:4:5:6:7:8").2.1 (by decide) (by decide)⟩

/-- Claim C3: basic bundle validation accumulates, in check order, a
bundle-type error, an empty-or-missing-object-list error, and one error per
missing `type` and per missing `id` of each member object; validity holds
exactly when the error list is empty; a well-formed bundle yields
`(true, [])`; an empty-object bundle yields invalid with a message about
missing objects. -/
theorem claim_C3_validate_bundle (b : VBundle) :
    ((validate_bundle (Except.ok b)).1 = true ↔ (validate_bundle (Except.ok b)).2 = []) ∧
    (validate_bundle (Except.ok b)).2 =
      (if b.type? ≠ some "bundle" then ["Invalid bundle type"] else []) ++
      (if (b.objects?.getD []).isEmpty then ["Bundle has no objects"] else []) ++
      allObjErrors (b.objects?.getD []) ∧
    (∀ o ∈ b.objects?.getD [],
      (o.type? = none →
        ("Object missing type: " ++ o.id?.getD "unknown") ∈ (validate_bundle (Except.ok b)).2) ∧
      (o.id? = none →
        ("Object missing id: " ++ o.type?.getD "unknown") ∈ (validate_bundle (Except.ok b)).2)) ∧
    (b.type? = some "bundle" → b.objects?.getD [] ≠ [] →
      (∀ o ∈ b.objects?.getD [], o.type?.isSome ∧ o.id?.isSome) →
      validate_bundle (Except.ok b) = (true, [])) ∧
    ((b.objects?.getD []).isEmpty = true →
      (validate_bundle (Except.ok b)).1 = false ∧
      "Bundle has no objects" ∈ (validate_bundle (Except.ok b)).2) := by
  refine ⟨?_, rfl, ?_, ?_, ?_⟩
  · simp [validate_bundle, validate_bundle_checks, List.isEmpty_iff]
  · intro o ho
    constructor
    · intro hty
      show _ ∈ (validate_bundle_checks b).2
      apply List.mem_append_right
      exact mem_allObjErrors ho (by simp [objErrors, hty])
    · intro hid
      show _ ∈ (validate_bundle_checks b).2
      apply List.mem_append_right
      refine mem_allObjErrors ho ?_
      unfold objErrors
      rw [hid]
      simp
  · intro hty hne hok
    have herr : (validate_bundle_checks b).2 = [] := by
      show ((if b.type? ≠ some "bundle" then _ else _) ++ _ ++ _) = []
      rw [if_neg (by simp [hty]), if_neg (by simp [List.isEmpty_iff, hne]),
        allObjErrors_nil hok]
      rfl
    show validate_bundle_checks b = (true, [])
    have : validate_bundle_checks b = ((validate_bundle_checks b).2.isEmpty,
        (validate_bundle_checks b).2) := rfl
    rw [this, herr]
    rfl
  · exact validate_checks_no_objects

/-- Witness for C3 at concrete bundles: the well-formed one-object bundle
validates to `(true, [])`, and the bundle with an empty object list is
invalid with the missing-objects message among its errors. -/
theorem claim_C3_witness :
    validate_bundle (Except.ok goodBundle) = (true, []) ∧
    ((validate_bundle (Except.ok { type? := some "bundle", objects? := some [] })).1
        = false ∧
      "Bundle has no objects" ∈
        (validate_bundle (Except.ok { type? := some "bundle", objects? := some [] })).2) :=
  ⟨(claim_C3_validate_bundle goodBundle).2.2.2.1 rfl (by decide) (by decide),
   (claim_C3_validate_bundle { type? := some "bundle", objects? := some [] }).2.2.2.2
     (by decide)⟩

/-- Claim C4: when serializing-and-checking raises an exception with
message `e`, `validate_bundle` returns overall-invalid with `[e]` as the
sole error list, and, being a total function on the `Except`-modelled
outcome, it always returns a (validity, error-list) report and never
propagates the exception. -/
theorem claim_C4_validator_exception :
    (∀ e : String, validate_bundle (Except.error e) = (false, [e])) ∧
    (∀ parsed : Except String VBundle, ∃ v errs, validate_bundle parsed = (v, errs)) :=
  ⟨fun _ => rfl, fun _ => ⟨_, _, rfl⟩⟩

/-- Counterexample for C5: the identifier `"T1055\n"` does not match the
claimed format `T####` / `T####.###` (it carries a trailing newline), yet
the attack-pattern generator accepts it and produces an object, because
Python's `$` anchor in `re.match` also matches just before a final
newline. -/
theorem claim_C5_counterexample :
    techniqueFormatSpec "T1055\n" = false ∧
    ((generate_attack_pattern g0 "T1055\n" none none).1).isSome = true := by
  constructor
  · decide
  · decide

/-- Claim C5 (amended): `generate_attack_pattern` produces no object
exactly when the technique identifier neither matches the format `T####` /
`T####.###` nor consists of that format followed by one trailing newline
(which Python's `$` anchor also accepts); an accepted identifier yields an
AttackPattern whose external reference carries the given identifier, and a
rejected one leaves the session untouched. -/
theorem claim_C5_attack_pattern (g : STIXGenerator) (tid : String)
    (n d : Option String) :
    ((generate_attack_pattern g tid n d).1 = none ↔
      ¬ (techniqueFormatSpec tid = true ∨
         (tid.data.getLast? = some '\n' ∧
          techniqueFormatSpec ⟨tid.data.dropLast⟩ = true))) ∧
    (∀ ap, (generate_attack_pattern g tid n d).1 = some ap →
      ap.external_id = tid ∧ ap.external_source_name = "mitre-attack") ∧
    ((generate_attack_pattern g tid n d).1 = none →
      (generate_attack_pattern g tid n d).2 = g) := by
  have hbridge : pyMatch techniqueCore tid.data = true ↔
      (techniqueFormatSpec tid = true ∨
       (tid.data.getLast? = some '\n' ∧
        techniqueFormatSpec ⟨tid.data.dropLast⟩ = true)) := by
    show (techniqueCore tid.data ||
      (tid.data.getLast? == some '\n' && techniqueCore tid.data.dropLast)) = true ↔ _
    simp [techniqueFormatSpec]
  cases h : pyMatch techniqueCore tid.data with
  | false =>
    rw [generate_attack_pattern_none g tid n d h]
    refine ⟨?_, ?_, fun _ => rfl⟩
    · simp only [true_iff]
      intro hcontra
      rw [hbridge.mpr hcontra] at h
      exact absurd h (by simp)
    · intro ap hap
      exact absurd hap (by simp)
  | true =>
    rw [generate_attack_pattern_some g tid n d h]
    refine ⟨?_, ?_, ?_⟩
    · simp only [reduceCtorEq, false_iff, not_not]
      exact hbridge.mp h
    · intro ap hap
      simp only [Option.some.injEq] at hap
      rw [← hap]
      exact ⟨rfl, rfl⟩
    · intro hcontra
      exact absurd hcontra (by simp)

/-- Witness for C5 (amended) at concrete inputs: `"T1055.001"` is accepted
and its AttackPattern carries the identifier as its external reference;
`"T12345"` is rejected. -/
theorem claim_C5_witness :
    (apObj g0 "T1055.001" none none).external_id = "T1055.001" ∧
    (generate_attack_pattern g0 "T12345" none none).1 = none := by
  constructor
  · exact ((claim_C5_attack_pattern g0 "T1055.001" none none).2.1
      (apObj g0 "T1055.001" none none) (by decide)).1
  · exact (claim_C5_attack_pattern g0 "T12345" none none).1.mpr (by decide)

/-- Claim C8: pattern synthesis is a total deterministic function of the
(value, type) pair; the ipv4 template is exactly the claimed one, so the
Indicator generated from IOC `192.0.2.1` carries exactly that pattern;
hash values are lower-cased in the emitted pattern; and an unrecognized
type tag falls back to the generic `[<type>:value = '<value>']`
template. -/
theorem claim_C8_pattern_synthesis :
    (∀ v : String, create_indicator_pattern v "ipv4" =
      "[network-traffic:dst_ref.type = 'ipv4-addr' AND network-traffic:dst_ref.value = '"
        ++ v ++ "']") ∧
    (∀ v : String, create_indicator_pattern v "md5" =
      "[file:hashes.MD5 = '" ++ pyLower v ++ "']") ∧
    (∀ v : String, create_indicator_pattern v "sha1" =
      "[file:hashes.SHA-1 = '" ++ pyLower v ++ "']") ∧
    (∀ v : String, create_indicator_pattern v "sha256" =
      "[file:hashes.SHA-256 = '" ++ pyLower v ++ "']") ∧
    (∀ v t : String,
      t ∉ (["ipv4", "ipv6", "domain", "url", "email", "md5", "sha1", "sha256"] :
        List String) →
      create_indicator_pattern v t = "[" ++ t ++ ":value = '" ++ v ++ "']") ∧
    (∀ (g : STIXGenerator) (now : String) (opts : IndicatorOpts),
      ∃ ind gb, generate_indicator g now "192.0.2.1" opts = (some ind, gb) ∧
        ind.pattern =
          "[network-traffic:dst_ref.type = 'ipv4-addr' AND network-traffic:dst_ref.value = '192.0.2.1']") := by
  refine ⟨fun v => rfl, fun v => by simp [create_indicator_pattern],
    fun v => by simp [create_indicator_pattern],
    fun v => by simp [create_indicator_pattern], ?_, ?_⟩
  · intro v t ht
    simp only [List.mem_cons, List.not_mem_nil, or_false, not_or] at ht
    obtain ⟨h1, h2, h3, h4, h5, h6, h7, h8⟩ := ht
    unfold create_indicator_pattern
    rw [if_neg h1, if_neg h2, if_neg h3, if_neg h4, if_neg h5, if_neg h6,
      if_neg h7, if_neg h8]
  · intro g now opts
    have hd : detect_ioc_type "192.0.2.1" = some "ipv4" := by decide
    refine ⟨indObj g now "192.0.2.1" "ipv4" opts, { g with nextId := g.nextId + 1 },
      ?_, rfl⟩
    unfold generate_indicator
    rw [hd]

/-- Witness for C8 at a concrete unrecognized type tag: pattern synthesis
for type `custom-type` degrades to the generic template. -/
theorem claim_C8_witness :
    create_indicator_pattern "x" "custom-type" = "[custom-type:value = 'x']" :=
  claim_C8_pattern_synthesis.2.2.2.2.1 "x" "custom-type" (by decide)

/-- Claim C9: `create_bundle` (with the third-party Bundle constructor
modelled from the spec) produces no Bundle exactly when the session's
object list is empty, and the empty-object-list condition is what the
downstream validation checks report as a "Bundle has no objects" error
with an overall-invalid result. -/
theorem claim_C9_create_bundle :
    (∀ g : STIXGenerator, create_bundle g = none ↔ g.objects = []) ∧
    (∀ b : VBundle, (b.objects?.getD []).isEmpty = true →
      (validate_bundle_checks b).1 = false ∧
      "Bundle has no objects" ∈ (validate_bundle_checks b).2) := by
  constructor
  · intro g
    unfold create_bundle
    cases g.objects with
    | nil => simp
    | cons x rest => simp
  · intro b hempty
    exact validate_checks_no_objects hempty

/-- Witness for C9 at concrete inputs: a fresh session has an empty object
list and `create_bundle` produces nothing for it, and the concrete bundle
dictionary with an empty object list is reported invalid with the
missing-objects message. -/
theorem claim_C9_witness :
    create_bundle g0 = none ∧
    "Bundle has no objects" ∈
      (validate_bundle_checks { type? := some "bundle", objects? := some [] }).2 :=
  ⟨(claim_C9_create_bundle.1 g0).mpr (by decide),
   (claim_C9_create_bundle.2 { type? := some "bundle", objects? := some [] }
     (by decide)).2⟩

/-- Claim C10: a fresh session starts with empty object and relationship
lists, and after any sequence of generator calls the relationships list is
an ordered sublist of the objects list — every relationship the composite
generators create is recorded in both lists. -/
theorem claim_C10_relationships_sublist (identity? : Option SObj) (ops : List GenOp) :
    (STIXGenerator.init identity?).objects = [] ∧
    (STIXGenerator.init identity?).relationships = [] ∧
    (runOps (STIXGenerator.init identity?) ops).relationships.Sublist
      (runOps (STIXGenerator.init identity?) ops).objects :=
  ⟨rfl, rfl, relationships_sublist_of_runOps _ (List.nil_sublist []) ops⟩

/-- Counterexample for C6: calling `generate_indicator` directly on a fresh
session succeeds — it returns an indicator — yet the session's object list
stays empty, so there is a generation path that returns a new object
without recording it in the session state (the recording for indicators
happens in `generate_indicators_from_file`). -/
theorem claim_C6_counterexample :
    ((generate_indicator g0 "2024-01-01T00:00:00Z" "192.0.2.1" {}).1).isSome = true ∧
    (generate_indicator g0 "2024-01-01T00:00:00Z" "192.0.2.1" {}).2.objects = [] := by
  constructor
  · decide
  · decide

/-- Claim C6 (amended): every successful generation by the attack-pattern,
malware, threat-actor and campaign generators appends the new object — and
any relationships it induces — to the session's object list, and the
per-file indicator generation appends every indicator it returns; but
`generate_indicator` alone returns the indicator without appending it,
leaving the session's object list unchanged. -/
theorem claim_C6_generation_appends :
    (∀ (g : STIXGenerator) (tid : String) (n d : Option String) (ap : SObj)
      (gb : STIXGenerator),
      generate_attack_pattern g tid n d = (some ap, gb) → ap ∈ gb.objects) ∧
    (∀ (g : STIXGenerator) (c : MalwareConfig),
      (generate_malware g c).1 ∈ (generate_malware g c).2.objects) ∧
    (∀ (g : STIXGenerator) (c : ThreatActorConfig),
      (generate_threat_actor g c).1 ∈ (generate_threat_actor g c).2.objects ∧
      ∃ rd, (generate_threat_actor g c).2.relationships = g.relationships ++ rd ∧
        ∀ r ∈ rd, r ∈ (generate_threat_actor g c).2.objects) ∧
    (∀ (g : STIXGenerator) (c : CampaignConfig),
      (generate_campaign g c).1 ∈ (generate_campaign g c).2.objects ∧
      ∃ rd, (generate_campaign g c).2.relationships = g.relationships ++ rd ∧
        ∀ r ∈ rd, r ∈ (generate_campaign g c).2.objects) ∧
    (∀ (g : STIXGenerator) (now : String) (lines : List String) (opts : IndicatorOpts),
      ∀ i ∈ (generate_indicators_from_file g now lines opts).1,
        i ∈ (generate_indicators_from_file g now lines opts).2.objects) ∧
    (∀ (g : STIXGenerator) (now ioc : String) (opts : IndicatorOpts) (ind : SObj)
      (gb : STIXGenerator),
      generate_indicator g now ioc opts = (some ind, gb) → gb.objects = g.objects) := by
  refine ⟨?_, ?_, ?_, ?_, ?_, ?_⟩
  · intro g tid n d ap gb heq
    cases h : pyMatch techniqueCore tid.data with
    | false =>
      rw [generate_attack_pattern_none g tid n d h] at heq
      exact absurd heq (by simp)
    | true =>
      rw [generate_attack_pattern_some g tid n d h] at heq
      simp only [Prod.mk.injEq, Option.some.injEq] at heq
      obtain ⟨h1, h2⟩ := heq
      rw [← h2, ← h1]
      simp
  · intro g c
    simp [generate_malware]
  · intro g c
    obtain ⟨actor, g', od, rd, heq, -, -, -, -, ho, hr, hi, hs, -⟩ :=
      generate_threat_actor_spec g c
    rw [heq]
    refine ⟨by simp [ho], rd, hr, ?_⟩
    intro r hrm
    rw [ho]
    exact List.mem_append_right _ (List.mem_cons_of_mem actor (hs.subset hrm))
  · intro g c
    constructor
    · have h1 : (generate_campaign g c).1 = campaignObj g c := rfl
      have h2 : (generate_campaign g c).2 =
          campaignMalwareStage (campaignObj g c).id c.malware
            (campaignActorStage (campaignObj g c).id c.threat_actor
              { g with objects := g.objects ++ [campaignObj g c],
                       nextId := g.nextId + 1 }) := rfl
      rw [h1, h2]
      apply mem_objects_of_extendsBy (extendsBy_campaignMalwareStage _ _ _)
      apply mem_objects_of_extendsBy (extendsBy_campaignActorStage _ _ _)
      simp
    · obtain ⟨-, od, rd, ho, hr, hs⟩ := extendsBy_campaign g c
      refine ⟨rd, hr, ?_⟩
      intro r hrm
      rw [ho]
      exact List.mem_append_right _ (hs.subset hrm)
  · intro g now lines opts
    exact fromFile_mem now opts lines ([], g) (by simp)
  · intro g now ioc opts ind gb heq
    have h2 : gb = (generate_indicator g now ioc opts).2 := by rw [heq]
    rw [h2]
    exact (generate_indicator_state g now ioc opts).1

/-- Witness for C6 (amended) at a concrete input: the attack pattern
generated for `"T1055"` on a fresh session is recorded in the resulting
session's object list. -/
theorem claim_C6_witness :
    apObj g0 "T1055" none none ∈ (generate_attack_pattern g0 "T1055" none none).2.objects :=
  claim_C6_generation_appends.1 g0 "T1055" none none (apObj g0 "T1055" none none)
    (generate_attack_pattern g0 "T1055" none none).2 (by decide)

/-- Claim C7: with reference enforcement requested, validation reports an
error for each endpoint of a relationship in the bundle that does not
resolve to the id of an object in the same bundle's object list; without
enforcement the error list is exactly that of the basic structural checks,
so such a relationship is accepted with no error. -/
theorem claim_C7_enforce_refs (b : VBundle) (o : VObj)
    (ho : o ∈ b.objects?.getD []) (hrel : o.type? = some "relationship") :
    (∀ s, o.source_ref? = some s → resolvedIn (b.objects?.getD []) s = false →
      ("Unresolved source_ref: " ++ s) ∈ (validate_bundle_opts true b).2) ∧
    (∀ t, o.target_ref? = some t → resolvedIn (b.objects?.getD []) t = false →
      ("Unresolved target_ref: " ++ t) ∈ (validate_bundle_opts true b).2) ∧
    (validate_bundle_opts false b).2 = (validate_bundle_checks b).2 := by
  refine ⟨?_, ?_, ?_⟩
  · intro s hs hres
    show _ ∈ (validate_bundle_checks b).2 ++ _
    apply List.mem_append_right
    rw [if_pos rfl]
    refine mem_allRefErrors ho ?_
    simp [relRefErrors, hrel, hs, hres]
  · intro t ht hres
    show _ ∈ (validate_bundle_checks b).2 ++ _
    apply List.mem_append_right
    rw [if_pos rfl]
    refine mem_allRefErrors ho ?_
    simp [relRefErrors, hrel, ht, hres]
  · simp [validate_bundle_opts]

/-- Witness for C7 at the concrete dangling bundle: the relationship whose
target `malware--9` is absent is reported under enforcement, and without
enforcement the error list equals that of the basic checks. -/
theorem claim_C7_witness :
    ("Unresolved target_ref: " ++ "malware--9") ∈
      (validate_bundle_opts true danglingBundle).2 ∧
    (validate_bundle_opts false danglingBundle).2 =
      (validate_bundle_checks danglingBundle).2 := by
  have inst := claim_C7_enforce_refs danglingBundle
    { type? := some "relationship", id? := some "relationship--2",
      source_ref? := some "campaign--1", target_ref? := some "malware--9" }
    (by decide) (by decide)
  exact ⟨inst.2.1 "malware--9" (by decide) (by decide), inst.2.2⟩

theorem campaign_stages_spec (cid : String) (tac : ThreatActorConfig)
    (mc1 mc2 : MalwareConfig) (h : STIXGenerator)
    (hcid : cid ≠ mkId "threat-actor" h.nextId) :
    ∃ actor m1 m2 rels od,
      (campaignMalwareStage cid (some [mc1, mc2])
        (campaignActorStage cid (some tac) h)).relationships =
          h.relationships ++ rels ∧
      (campaignMalwareStage cid (some [mc1, mc2])
        (campaignActorStage cid (some tac) h)).objects = h.objects ++ od ∧
      (campaignMalwareStage cid (some [mc1, mc2])
        (campaignActorStage cid (some tac) h)).identity = h.identity ∧
      actor.typ = "threat-actor" ∧ m1.typ = "malware" ∧ m2.typ = "malware" ∧
      rels.countP (fun r => r.relationship_type == "attributed-to") = 1 ∧
      rels.countP (fun r => r.relationship_type == "uses" && r.source_ref == cid) = 2 ∧
      (∃ r ∈ rels, r.relationship_type = "attributed-to" ∧ r.source_ref = cid ∧
        r.target_ref = actor.id) ∧
      (∃ r ∈ rels, r.relationship_type = "uses" ∧ r.source_ref = cid ∧
        r.target_ref = m1.id) ∧
      (∃ r ∈ rels, r.relationship_type = "uses" ∧ r.source_ref = cid ∧
        r.target_ref = m2.id) ∧
      (∀ r ∈ rels, r.created_by_ref = h.identity.id) ∧
      actor ∈ od ∧ m1 ∈ od ∧ m2 ∈ od ∧ (∀ r ∈ rels, r ∈ od) := by
  obtain ⟨actor, odA, rdA, relA, hoA, hrA, hiA, hsA, htyA, hidA, hcbA, hrtA,
    hrTy, hrType, hrSrc, hrTgt, hrCb, hpA⟩ := campaignActorStage_spec cid tac h
  obtain ⟨m1, rel2, hoM1, hrM1, hiM1, hm1ty, hm1id, hm1cb, hm1rt,
    hr2ty, hr2type, hr2src, hr2tgt, hr2cb⟩ :=
    addCampaignMalware_spec cid (campaignActorStage cid (some tac) h) mc1
  obtain ⟨m2, rel3, hoM2, hrM2, hiM2, hm2ty, hm2id, hm2cb, hm2rt,
    hr3ty, hr3type, hr3src, hr3tgt, hr3cb⟩ :=
    addCampaignMalware_spec cid
      (addCampaignMalware cid (campaignActorStage cid (some tac) h) mc1) mc2
  have hfold : campaignMalwareStage cid (some [mc1, mc2])
      (campaignActorStage cid (some tac) h) =
      addCampaignMalware cid
        (addCampaignMalware cid (campaignActorStage cid (some tac) h) mc1) mc2 := rfl
  have hactor_ne : (actor.id == cid) = false := by
    refine beq_eq_false_iff_ne.mpr ?_
    rw [hidA]
    exact fun e => hcid e.symm
  have hrelsF : (campaignMalwareStage cid (some [mc1, mc2])
      (campaignActorStage cid (some tac) h)).relationships =
      h.relationships ++ (rdA ++ [relA, rel2, rel3]) := by
    rw [hfold, hrM2, hrM1, hrA]
    simp
  have hobjF : (campaignMalwareStage cid (some [mc1, mc2])
      (campaignActorStage cid (some tac) h)).objects =
      h.objects ++ ((actor :: odA ++ [relA]) ++ ([m1, rel2] ++ [m2, rel3])) := by
    rw [hfold, hoM2, hoM1, hoA]
    simp
  have hidF : (campaignMalwareStage cid (some [mc1, mc2])
      (campaignActorStage cid (some tac) h)).identity = h.identity := by
    rw [hfold, hiM2, hiM1, hiA]
  refine ⟨actor, m1, m2, rdA ++ [relA, rel2, rel3],
    (actor :: odA ++ [relA]) ++ ([m1, rel2] ++ [m2, rel3]),
    hrelsF, hobjF, hidF, htyA, hm1ty, hm2ty, ?_, ?_, ?_, ?_, ?_, ?_, ?_, ?_, ?_, ?_⟩
  · rw [List.countP_append]
    have hz : rdA.countP (fun r => r.relationship_type == "attributed-to") = 0 := by
      refine List.countP_eq_zero.mpr ?_
      intro r hm
      obtain ⟨-, hu, -, -⟩ := hpA r hm
      simp [hu]
    rw [hz]
    have h1 : (relA.relationship_type == "attributed-to") = true := by simp [hrType]
    have h2 : (rel2.relationship_type == "attributed-to") = false := by simp [hr2type]
    have h3 : (rel3.relationship_type == "attributed-to") = false := by simp [hr3type]
    simp [List.countP_cons, h1, h2, h3]
  · rw [List.countP_append]
    have hz : rdA.countP (fun r => r.relationship_type == "uses" &&
        r.source_ref == cid) = 0 := by
      refine List.countP_eq_zero.mpr ?_
      intro r hm
      obtain ⟨-, -, hsrc, -⟩ := hpA r hm
      simp only [Bool.and_eq_true, not_and]
      intro _
      rw [hsrc]
      simp [hactor_ne]
    rw [hz]
    have h1 : (relA.relationship_type == "uses" && relA.source_ref == cid) = false := by
      simp [hrType]
    have h2 : (rel2.relationship_type == "uses" && rel2.source_ref == cid) = true := by
      simp [hr2type, hr2src]
    have h3 : (rel3.relationship_type == "uses" && rel3.source_ref == cid) = true := by
      simp [hr3type, hr3src]
    simp [List.countP_cons, h1, h2, h3]
  · exact ⟨relA, by simp, hrType, hrSrc, hrTgt⟩
  · exact ⟨rel2, by simp, hr2type, hr2src, hr2tgt⟩
  · exact ⟨rel3, by simp, hr3type, hr3src, hr3tgt⟩
  · intro r hm
    simp only [List.mem_append, List.mem_cons, List.not_mem_nil, or_false] at hm
    rcases hm with hm | rfl | rfl | rfl
    · exact (hpA r hm).2.2.2
    · exact hrCb
    · rw [hr2cb, hiA]
    · rw [hr3cb, hiM1, hiA]
  · simp
  · simp
  · simp
  · intro r hm
    simp only [List.mem_append, List.mem_cons, List.not_mem_nil, or_false] at hm
    rcases hm with hm | rfl | rfl | rfl
    · have : r ∈ rdA ++ [relA] := List.mem_append_left _ hm
      have h2 := hsA.subset this
      simp only [List.mem_append, List.mem_cons] at h2 ⊢
      tauto
    · simp
    · simp
    · simp

/-- Claim C2: generating a campaign whose configuration holds one
threat-actor record and exactly two malware records produces exactly one
`attributed-to` relationship (campaign to actor) and exactly two `uses`
relationships from the campaign (one to each malware); every produced
relationship's creator reference is the active identity's id; and the
campaign, the actor, both malware objects and all produced relationships
are appended to the session's object list. -/
theorem claim_C2_generate_campaign (g : STIXGenerator) (c : CampaignConfig)
    (tac : ThreatActorConfig) (mc1 mc2 : MalwareConfig)
    (hta : c.threat_actor = some tac) (hmw : c.malware = some [mc1, mc2]) :
    ∃ campaign g' actor m1 m2 rels,
      generate_campaign g c = (campaign, g') ∧
      campaign.typ = "campaign" ∧ actor.typ = "threat-actor" ∧
      m1.typ = "malware" ∧ m2.typ = "malware" ∧
      g'.relationships = g.relationships ++ rels ∧
      rels.countP (fun r => r.relationship_type == "attributed-to") = 1 ∧
      rels.countP (fun r => r.relationship_type == "uses" &&
        r.source_ref == campaign.id) = 2 ∧
      (∃ r ∈ rels, r.relationship_type = "attributed-to" ∧
        r.source_ref = campaign.id ∧ r.target_ref = actor.id) ∧
      (∃ r ∈ rels, r.relationship_type = "uses" ∧ r.source_ref = campaign.id ∧
        r.target_ref = m1.id) ∧
      (∃ r ∈ rels, r.relationship_type = "uses" ∧ r.source_ref = campaign.id ∧
        r.target_ref = m2.id) ∧
      (∀ r ∈ rels, r.created_by_ref = g.identity.id) ∧
      campaign ∈ g'.objects ∧ actor ∈ g'.objects ∧ m1 ∈ g'.objects ∧
      m2 ∈ g'.objects ∧ (∀ r ∈ rels, r ∈ g'.objects) := by
  have hgen : generate_campaign g c =
      (campaignObj g c,
       campaignMalwareStage (campaignObj g c).id (some [mc1, mc2])
         (campaignActorStage (campaignObj g c).id (some tac)
           { g with objects := g.objects ++ [campaignObj g c],
                    nextId := g.nextId + 1 })) := by
    unfold generate_campaign
    rw [hta, hmw]
  obtain ⟨actor, m1, m2, rels, od, hrels, hobj, -, htyA, htyM1, htyM2, hc1, hc2,
    hex1, hex2, hex3, hcb, hma, hmm1, hmm2, hmr⟩ :=
    campaign_stages_spec (campaignObj g c).id tac mc1 mc2
      { g with objects := g.objects ++ [campaignObj g c], nextId := g.nextId + 1 }
      (Ne.symm (campaign_id_ne_actor_id (g.nextId + 1) g.nextId))
  refine ⟨campaignObj g c, _, actor, m1, m2, rels, hgen, rfl, htyA, htyM1, htyM2,
    hrels, hc1, hc2, hex1, hex2, hex3, hcb, ?_, ?_, ?_, ?_, ?_⟩
  · rw [hobj]
    simp
  · rw [hobj]
    simp only [List.mem_append]
    exact Or.inr hma
  · rw [hobj]
    simp only [List.mem_append]
    exact Or.inr hmm1
  · rw [hobj]
    simp only [List.mem_append]
    exact Or.inr hmm2
  · intro r hm
    rw [hobj]
    simp only [List.mem_append]
    exact Or.inr (hmr r hm)

/-- Witness for C2 at the concrete fixture: one threat-actor record with
one observed TTP and two malware records, on a fresh session. -/
theorem claim_C2_witness :
    ∃ campaign g' actor m1 m2 rels,
      generate_campaign g0 campaignCfg = (campaign, g') ∧
      campaign.typ = "campaign" ∧ actor.typ = "threat-actor" ∧
      m1.typ = "malware" ∧ m2.typ = "malware" ∧
      g'.relationships = g0.relationships ++ rels ∧
      rels.countP (fun r => r.relationship_type == "attributed-to") = 1 ∧
      rels.countP (fun r => r.relationship_type == "uses" &&
        r.source_ref == campaign.id) = 2 ∧
      (∃ r ∈ rels, r.relationship_type = "attributed-to" ∧
        r.source_ref = campaign.id ∧ r.target_ref = actor.id) ∧
      (∃ r ∈ rels, r.relationship_type = "uses" ∧ r.source_ref = campaign.id ∧
        r.target_ref = m1.id) ∧
      (∃ r ∈ rels, r.relationship_type = "uses" ∧ r.source_ref = campaign.id ∧
        r.target_ref = m2.id) ∧
      (∀ r ∈ rels, r.created_by_ref = g0.identity.id) ∧
      campaign ∈ g'.objects ∧ actor ∈ g'.objects ∧ m1 ∈ g'.objects ∧
      m2 ∈ g'.objects ∧ (∀ r ∈ rels, r ∈ g'.objects) :=
  claim_C2_generate_campaign g0 campaignCfg
    { name := some "APT Example", observed_ttps := some ["T1055"] }
    { name := some "BadRAT" } { name := some "Dropper" } rfl rfl

end StixGen
